import Mathlib

/-!
Verification of the libmboxid Modbus TCP library against its specification.

The development shallowly embeds the C++ sources: PDUs and buffers of
`uint8_t` become `List Nat` (entries are bytes, kept below 256 by
construction or by hypothesis), the `errc` enumeration becomes named `Nat`
constants with the enum's underlying values, fallible functions return
`Except Nat` (the error code of the `mboxid_error` thrown), and the
server engine additionally returns the list of backend invocations it
performed, so that claims about which backend calls happen are statable.
-/

namespace mboxid

/-! ## Error model (include/mboxid/error.hpp)

The C++ scoped enum `errc` has underlying values assigned sequentially
from 0; we embed each enumerator as its underlying value. -/

namespace errc

def none : Nat := 0
def modbus_exception_illegal_function : Nat := 1
def modbus_exception_illegal_data_address : Nat := 2
def modbus_exception_illegal_data_value : Nat := 3
def modbus_exception_server_device_failure : Nat := 4
def modbus_exception_acknowledge : Nat := 5
def modbus_exception_server_device_busy : Nat := 6
def modbus_exception_negative_acknowledge : Nat := 7
def modbus_exception_memory_parity : Nat := 8
def modbus_exception_not_defined : Nat := 9
def modbus_exception_gateway_path : Nat := 10
def modbus_exception_gateway_target : Nat := 11
def invalid_argument : Nat := 12
def logic_error : Nat := 13
def gai_error : Nat := 14
def passive_open_error : Nat := 15
def active_open_error : Nat := 16
def parse_error : Nat := 17
def timeout : Nat := 18
def not_connected : Nat := 19
def connection_closed : Nat := 20

end errc

/-- Embeds `is_modbus_exception(errc)`: `(e > errc::none) && (e < errc::invalid_argument)`. -/
def is_modbus_exception (e : Nat) : Bool :=
  decide (errc.none < e ∧ e < errc.invalid_argument)

/-! ## Byte codec (byteorder.hpp)

Buffers of `uint8_t` are `List Nat`; a store truncates exactly as the
`static_cast` in the source does, a fetch reads bytes (which are below
256 in every run of the source, since the buffers are byte arrays). -/

/-- Embeds `store8`: `static_cast<uint8_t>(val)` written as one byte. -/
def store8 (v : Nat) : List Nat := [v % 256]

/-- Embeds `store16_be`: `static_cast<uint16_t>(val)` written big-endian. -/
def store16_be (v : Nat) : List Nat := [v / 256 % 256, v % 256]

/-- Embeds `fetch8`: read the byte at offset `i`. -/
def fetch8 (src : List Nat) (i : Nat) : Nat := src.getD i 0

/-- Embeds `fetch16_be`: `(buf[0] << 8) | buf[1]`; for bytes the bitwise
or of disjoint bit ranges is addition. -/
def fetch16_be (src : List Nat) (i : Nat) : Nat :=
  src.getD i 0 * 256 + src.getD (i + 1) 0

/-! ## Size constants (modbus_protocol_common.hpp) -/

def min_pdu_size : Nat := 2
def max_pdu_size : Nat := 253
def mbap_header_size : Nat := 7
def max_adu_size : Nat := mbap_header_size + max_pdu_size
def read_bits_req_size : Nat := 5
def read_bits_rsp_min_size : Nat := 3
def read_registers_req_size : Nat := 5
def read_registers_rsp_min_size : Nat := 4
def write_coil_req_size : Nat := 5
def write_coil_rsp_size : Nat := 5
def write_register_req_size : Nat := 5
def write_register_rsp_size : Nat := 5
def write_multiple_coils_req_min_size : Nat := 7
def write_multiple_coils_rsp_size : Nat := 5
def write_multiple_registers_req_min_size : Nat := 8
def write_multiple_registers_rsp_size : Nat := 5
def mask_write_register_req_size : Nat := 7
def mask_write_register_rsp_size : Nat := 7
def read_write_multiple_registers_req_min_size : Nat := 12
def read_write_multiple_registers_rsp_min_size : Nat := 4
def read_device_identification_req_size : Nat := 4
def read_device_identification_rsp_min_size : Nat := 10
def exception_rsp_size : Nat := 2

def single_coil_off : Nat := 0x0000
def single_coil_on : Nat := 0xff00

def min_read_bits : Nat := 1
def max_read_bits : Nat := 2000
def min_read_registers : Nat := 1
def max_read_registers : Nat := 125
def min_write_coils : Nat := 1
def max_write_coils : Nat := 1968
def min_write_registers : Nat := 1
def max_write_registers : Nat := 123
def min_rdwr_read_registers : Nat := 1
def max_rdwr_read_registers : Nat := 125
def min_rdwr_write_registers : Nat := 1
def max_rdwr_write_registers : Nat := 121

/-- Embeds `bit_to_byte_count`: `(n_bits + 7) / 8`. -/
def bit_to_byte_count (n_bits : Nat) : Nat := (n_bits + 8 - 1) / 8

/-! ## MBAP header framer (modbus_protocol_common.cpp) -/

structure mbap_header where
  transaction_id : Nat
  protocol_id : Nat
  length : Nat
  unit_id : Nat
deriving DecidableEq, Repr

/-- Embeds `parse_mbap_header`. The buffer-size precondition is an
`expects`, which throws `errc::logic_error`; the field checks throw
`errc::parse_error`. -/
def parse_mbap_header (src : List Nat) : Except Nat mbap_header :=
  if src.length < mbap_header_size then .error errc.logic_error
  else
    let header : mbap_header :=
      { transaction_id := fetch16_be src 0
        protocol_id := fetch16_be src 2
        length := fetch16_be src 4
        unit_id := fetch8 src 6 }
    if header.protocol_id ≠ 0 then .error errc.parse_error
    else if header.length < min_pdu_size + 1 ∨
        header.length > max_pdu_size + 1 then .error errc.parse_error
    else .ok header

/-- Embeds `serialize_mbap_header` (the written 7 bytes). -/
def serialize_mbap_header (header : mbap_header) : List Nat :=
  store16_be header.transaction_id ++ store16_be header.protocol_id ++
    store16_be header.length ++ store8 header.unit_id

/-! ## Bit and register packing (modbus_protocol_common.cpp) -/

/-- Value of one packed byte: bit `j` of the byte is coil `j` of the
chunk (LSB first), exactly the inner loop of `serialize_bits`. -/
def bitsToByte : List Bool → Nat
  | [] => 0
  | b :: rest => (if b then 1 else 0) + 2 * bitsToByte rest

/-- Embeds `serialize_bits`: pack the coils into `ceil(cnt/8)` bytes,
LSB-first within each byte. -/
def serialize_bits (bits : List Bool) : List Nat :=
  match bits with
  | [] => []
  | b :: rest => bitsToByte ((b :: rest).take 8) :: serialize_bits ((b :: rest).drop 8)
termination_by bits.length

/-- Embeds `parse_bits`: coil `ix` is bit `ix % 8` of byte `ix / 8`
(`bits[ix] = val & (1U << j)`). -/
def parse_bits (src : List Nat) (cnt : Nat) : List Bool :=
  (List.range cnt).map (fun ix => (src.getD (ix / 8) 0).testBit (ix % 8))

/-- Embeds `serialize_regs`: each register stored big-endian in order. -/
def serialize_regs : List Nat → List Nat
  | [] => []
  | v :: rest => store16_be v ++ serialize_regs rest

/-- Embeds `parse_regs`: register `i` is fetched big-endian at offset `2*i`. -/
def parse_regs (src : List Nat) (cnt : Nat) : List Nat :=
  (List.range cnt).map (fun i => fetch16_be src (2 * i))

/-! ### Packing roundtrip lemmas -/

theorem bitsToByte_testBit (l : List Bool) (j : Nat) :
    (bitsToByte l).testBit j = l.getD j false := by
  induction l generalizing j with
  | nil => simp [bitsToByte, Nat.zero_testBit]
  | cons b rest ih =>
    cases j with
    | zero =>
      simp only [bitsToByte, Nat.testBit_zero, List.getD_cons_zero]
      cases b <;> simp
    | succ j =>
      simp only [bitsToByte, Nat.testBit_succ, List.getD_cons_succ]
      have h2 : ((if b then 1 else 0) + 2 * bitsToByte rest) / 2 = bitsToByte rest := by
        cases b <;> simp [Nat.add_mul_div_left]
      rw [h2, ih]

theorem serialize_bits_getD (bits : List Bool) (i : Nat) :
    (serialize_bits bits).getD i 0 = bitsToByte ((bits.drop (8 * i)).take 8) := by
  induction i generalizing bits with
  | zero =>
    cases bits with
    | nil => simp [serialize_bits, bitsToByte]
    | cons b rest => simp [serialize_bits]
  | succ i ih =>
    cases bits with
    | nil => simp [serialize_bits, bitsToByte]
    | cons b rest =>
      show (serialize_bits (b :: rest)).getD (i + 1) 0 = _
      rw [serialize_bits]
      simp only [List.getD_cons_succ]
      rw [ih]
      congr 2
      rw [List.drop_drop]
      congr 1
      omega

theorem parse_serialize_bits (bits : List Bool) :
    parse_bits (serialize_bits bits) bits.length = bits := by
  apply List.ext_getElem
  · simp [parse_bits]
  · intro ix h1 h2
    simp only [parse_bits, List.getElem_map, List.getElem_range]
    have hix : ix < bits.length := by simpa [parse_bits] using h1
    rw [serialize_bits_getD, bitsToByte_testBit]
    have hmod : ix % 8 < 8 := Nat.mod_lt _ (by omega)
    rw [List.getD_eq_getElem?_getD, List.getElem?_take_of_lt hmod,
      List.getElem?_drop]
    have : 8 * (ix / 8) + ix % 8 = ix := Nat.div_add_mod ix 8
    rw [this]
    simp [List.getElem?_eq_getElem hix]

theorem parse_serialize_regs (regs : List Nat) (h : ∀ v ∈ regs, v < 65536) :
    parse_regs (serialize_regs regs) regs.length = regs := by
  induction regs with
  | nil => simp [parse_regs, serialize_regs]
  | cons v rest ih =>
    have hv : v < 65536 := h v (List.mem_cons_self v rest)
    have hrest : ∀ w ∈ rest, w < 65536 := fun w hw => h w (List.mem_cons_of_mem v hw)
    have hhead : fetch16_be (serialize_regs (v :: rest)) 0 = v := by
      have hdiv : v / 256 < 256 := by omega
      simp [serialize_regs, store16_be, fetch16_be, Nat.mod_eq_of_lt hdiv]
      omega
    have hshift : ∀ i : Nat, fetch16_be (serialize_regs (v :: rest)) (2 * (i + 1)) =
        fetch16_be (serialize_regs rest) (2 * i) := by
      intro i
      have e1 : serialize_regs (v :: rest) =
          v / 256 % 256 :: v % 256 :: serialize_regs rest := rfl
      simp only [fetch16_be, e1]
      have h1 : 2 * (i + 1) = 2 * i + 1 + 1 := by ring
      rw [h1]
      simp only [List.getD_cons_succ]
    simp only [List.length_cons, parse_regs, List.range_succ_eq_map, List.map_cons,
      List.map_map]
    rw [List.cons_eq_cons]
    refine ⟨by simpa using hhead, ?_⟩
    calc (List.range rest.length).map
          ((fun i => fetch16_be (serialize_regs (v :: rest)) (2 * i)) ∘ Nat.succ)
        = (List.range rest.length).map (fun i => fetch16_be (serialize_regs rest) (2 * i)) := by
          apply List.map_congr_left
          intro i _
          have := hshift i
          simpa [Function.comp, Nat.succ_eq_add_one] using this
      _ = rest := by
          have := ih hrest
          simpa [parse_regs] using this

/-! ## Backend connector (include/mboxid/backend_connector.hpp)

The backend is a virtual interface; we model it as a structure of pure
functions. Read-style methods return the `errc` result together with the
data they place into the output vector; write-style methods return the
`errc` result. Values held in `vector<uint16_t>` are below 65536 by
type, which theorems carry as hypotheses. -/

structure backend_connector where
  read_coils : Nat → Nat → Nat × List Bool
  read_discrete_inputs : Nat → Nat → Nat × List Bool
  read_holding_registers : Nat → Nat → Nat × List Nat
  read_input_registers : Nat → Nat → Nat × List Nat
  write_coils : Nat → List Bool → Nat
  write_holding_registers : Nat → List Nat → Nat
  write_read_holding_registers : Nat → List Nat → Nat → Nat → Nat × List Nat
  get_basic_device_identification : Nat × (List Nat × List Nat × List Nat)

/-- Record of one backend invocation made by the server engine, so that
claims about which calls the engine performs are statable. -/
inductive backend_call where
  | read_coils (addr cnt : Nat)
  | read_discrete_inputs (addr cnt : Nat)
  | read_holding_registers (addr cnt : Nat)
  | read_input_registers (addr cnt : Nat)
  | write_coils (addr : Nat) (bits : List Bool)
  | write_holding_registers (addr : Nat) (regs : List Nat)
  | write_read_holding_registers (addr_wr : Nat) (regs_wr : List Nat) (addr_rd cnt_rd : Nat)
  | get_basic_device_identification
deriving DecidableEq, Repr

/-! ## Server engine (modbus_protocol_server.cpp)

Each `process_*` function returns the outcome (`.ok` with the response
PDU written into the caller's buffer, or `.error` with the code of the
`mboxid_error` thrown) paired with the list of backend invocations it
made. The `expects` checks on the response-buffer capacity are omitted
for the handlers whose response size is bounded by the request's range
checks (their responses of at most 252 bytes always fit the
`max_pdu_size`-byte span the engine's only caller hands it); the
device-identification handler's capacity check depends on the backend's
strings and is modelled. The `expects` checks inside `parse_bits` and
`parse_regs` on the request buffer are modelled as `errc.logic_error`
guards at the call sites. -/

/-- Embeds `serialize_exception_response`: one byte `0x80 | fc`, one byte
exception code. -/
def serialize_exception_response (fc : Nat) (e : Nat) : List Nat :=
  store8 (0x80 ||| fc) ++ store8 e

/-- Embeds `process_read_bits` (function codes 0x01 and 0x02). -/
def process_read_bits (b : backend_connector) (req : List Nat) :
    Except Nat (List Nat) × List backend_call :=
  if req.length ≠ read_bits_req_size then (.error errc.parse_error, [])
  else
    let fc := fetch8 req 0
    let addr := fetch16_be req 1
    let cnt := fetch16_be req 3
    if ¬(min_read_bits ≤ cnt ∧ cnt ≤ max_read_bits) then
      (.ok (serialize_exception_response fc errc.modbus_exception_illegal_data_value), [])
    else
      let r := if fc = 1 then b.read_coils addr cnt else b.read_discrete_inputs addr cnt
      let call := if fc = 1 then backend_call.read_coils addr cnt
        else backend_call.read_discrete_inputs addr cnt
      if is_modbus_exception r.1 then (.ok (serialize_exception_response fc r.1), [call])
      else if r.1 ≠ errc.none then (.error r.1, [call])
      else if r.2.length ≠ cnt then (.error errc.logic_error, [call])
      else (.ok (store8 fc ++ store8 (bit_to_byte_count cnt) ++ serialize_bits r.2), [call])

/-- Embeds `process_read_registers` (function codes 0x03 and 0x04). -/
def process_read_registers (b : backend_connector) (req : List Nat) :
    Except Nat (List Nat) × List backend_call :=
  if req.length ≠ read_registers_req_size then (.error errc.parse_error, [])
  else
    let fc := fetch8 req 0
    let addr := fetch16_be req 1
    let cnt := fetch16_be req 3
    if ¬(min_read_registers ≤ cnt ∧ cnt ≤ max_read_registers) then
      (.ok (serialize_exception_response fc errc.modbus_exception_illegal_data_value), [])
    else
      let r := if fc = 3 then b.read_holding_registers addr cnt
        else b.read_input_registers addr cnt
      let call := if fc = 3 then backend_call.read_holding_registers addr cnt
        else backend_call.read_input_registers addr cnt
      if is_modbus_exception r.1 then (.ok (serialize_exception_response fc r.1), [call])
      else if r.1 ≠ errc.none then (.error r.1, [call])
      else if r.2.length ≠ cnt then (.error errc.logic_error, [call])
      else (.ok (store8 fc ++ store8 (cnt * 2) ++ serialize_regs r.2), [call])

/-- Embeds `process_write_single_coil` (function code 0x05). -/
def process_write_single_coil (b : backend_connector) (req : List Nat) :
    Except Nat (List Nat) × List backend_call :=
  if req.length ≠ write_coil_req_size then (.error errc.parse_error, [])
  else
    let fc := fetch8 req 0
    let addr := fetch16_be req 1
    let val := fetch16_be req 3
    if val ≠ single_coil_off ∧ val ≠ single_coil_on then
      (.ok (serialize_exception_response fc errc.modbus_exception_illegal_data_value), [])
    else
      let bits : List Bool := [val = single_coil_on]
      let res := b.write_coils addr bits
      let call := backend_call.write_coils addr bits
      if is_modbus_exception res then (.ok (serialize_exception_response fc res), [call])
      else if res ≠ errc.none then (.error res, [call])
      else (.ok (store8 fc ++ store16_be addr ++ store16_be val), [call])

/-- Embeds `process_write_single_register` (function code 0x06). -/
def process_write_single_register (b : backend_connector) (req : List Nat) :
    Except Nat (List Nat) × List backend_call :=
  if req.length ≠ write_register_req_size then (.error errc.parse_error, [])
  else
    let fc := fetch8 req 0
    let addr := fetch16_be req 1
    let val := fetch16_be req 3
    let res := b.write_holding_registers addr [val]
    let call := backend_call.write_holding_registers addr [val]
    if is_modbus_exception res then (.ok (serialize_exception_response fc res), [call])
    else if res ≠ errc.none then (.error res, [call])
    else (.ok (store8 fc ++ store16_be addr ++ store16_be val), [call])

/-- Embeds `process_write_multiple_coils` (function code 0x0F). -/
def process_write_multiple_coils (b : backend_connector) (req : List Nat) :
    Except Nat (List Nat) × List backend_call :=
  if req.length < write_multiple_coils_req_min_size then (.error errc.parse_error, [])
  else
    let fc := fetch8 req 0
    let addr := fetch16_be req 1
    let cnt := fetch16_be req 3
    let byte_cnt := fetch8 req 5
    if ¬(min_write_coils ≤ cnt ∧ cnt ≤ max_write_coils) ∨
        byte_cnt ≠ bit_to_byte_count cnt then
      (.ok (serialize_exception_response fc errc.modbus_exception_illegal_data_value), [])
    else if (req.drop 6).length < bit_to_byte_count cnt then (.error errc.logic_error, [])
    else
      let bits := parse_bits (req.drop 6) cnt
      let res := b.write_coils addr bits
      let call := backend_call.write_coils addr bits
      if is_modbus_exception res then (.ok (serialize_exception_response fc res), [call])
      else if res ≠ errc.none then (.error res, [call])
      else (.ok (store8 fc ++ store16_be addr ++ store16_be cnt), [call])

/-- Embeds `process_write_multiple_registers` (function code 0x10). -/
def process_write_multiple_registers (b : backend_connector) (req : List Nat) :
    Except Nat (List Nat) × List backend_call :=
  if req.length < write_multiple_registers_req_min_size then (.error errc.parse_error, [])
  else
    let fc := fetch8 req 0
    let addr := fetch16_be req 1
    let cnt := fetch16_be req 3
    let byte_cnt := fetch8 req 5
    if ¬(min_write_registers ≤ cnt ∧ cnt ≤ max_write_registers) ∨
        byte_cnt ≠ cnt * 2 then
      (.ok (serialize_exception_response fc errc.modbus_exception_illegal_data_value), [])
    else if (req.drop 6).length < cnt * 2 then (.error errc.logic_error, [])
    else
      let regs := parse_regs (req.drop 6) cnt
      let res := b.write_holding_registers addr regs
      let call := backend_call.write_holding_registers addr regs
      if is_modbus_exception res then (.ok (serialize_exception_response fc res), [call])
      else if res ≠ errc.none then (.error res, [call])
      else (.ok (store8 fc ++ store16_be addr ++ store16_be cnt), [call])

/-- Embeds `process_mask_write_registers` (function code 0x16). The
source computes `regs[0] = (regs[0] & and_mask) | (or_mask & ~and_mask)`
with `unsigned` (32-bit) masks, hence the 32-bit complement here. -/
def process_mask_write_registers (b : backend_connector) (req : List Nat) :
    Except Nat (List Nat) × List backend_call :=
  if req.length ≠ mask_write_register_req_size then (.error errc.parse_error, [])
  else
    let fc := fetch8 req 0
    let addr := fetch16_be req 1
    let and_mask := fetch16_be req 3
    let or_mask := fetch16_be req 5
    let r := b.read_holding_registers addr 1
    let rdcall := backend_call.read_holding_registers addr 1
    if r.1 = errc.none then
      if r.2.length ≠ 1 then (.error errc.logic_error, [rdcall])
      else
        let newval := (r.2.getD 0 0 &&& and_mask) ||| (or_mask &&& (4294967295 ^^^ and_mask))
        let res := b.write_holding_registers addr [newval]
        let wrcall := backend_call.write_holding_registers addr [newval]
        if is_modbus_exception res then
          (.ok (serialize_exception_response fc res), [rdcall, wrcall])
        else if res ≠ errc.none then (.error res, [rdcall, wrcall])
        else (.ok (store8 fc ++ store16_be addr ++ store16_be and_mask ++
          store16_be or_mask), [rdcall, wrcall])
    else
      if is_modbus_exception r.1 then (.ok (serialize_exception_response fc r.1), [rdcall])
      else (.error r.1, [rdcall])

/-- Embeds `process_read_write_multiple_registers` (function code 0x17). -/
def process_read_write_multiple_registers (b : backend_connector) (req : List Nat) :
    Except Nat (List Nat) × List backend_call :=
  if req.length < read_write_multiple_registers_req_min_size then
    (.error errc.parse_error, [])
  else
    let fc := fetch8 req 0
    let addr_rd := fetch16_be req 1
    let cnt_rd := fetch16_be req 3
    let addr_wr := fetch16_be req 5
    let cnt_wr := fetch16_be req 7
    let byte_cnt_wr := fetch8 req 9
    if ¬(min_rdwr_read_registers ≤ cnt_rd ∧ cnt_rd ≤ max_rdwr_read_registers) ∨
        ¬(min_rdwr_write_registers ≤ cnt_wr ∧ cnt_wr ≤ max_rdwr_write_registers) ∨
        byte_cnt_wr ≠ cnt_wr * 2 then
      (.ok (serialize_exception_response fc errc.modbus_exception_illegal_data_value), [])
    else if (req.drop 10).length < cnt_wr * 2 then (.error errc.logic_error, [])
    else
      let regs_wr := parse_regs (req.drop 10) cnt_wr
      let r := b.write_read_holding_registers addr_wr regs_wr addr_rd cnt_rd
      let call := backend_call.write_read_holding_registers addr_wr regs_wr addr_rd cnt_rd
      if is_modbus_exception r.1 then (.ok (serialize_exception_response fc r.1), [call])
      else if r.1 ≠ errc.none then (.error r.1, [call])
      else if r.2.length ≠ cnt_rd then (.error errc.logic_error, [call])
      else (.ok (store8 fc ++ store8 (cnt_rd * 2) ++ serialize_regs r.2), [call])

/-- Embeds `process_read_device_information` (function code 0x2B). The
identification strings come from the backend, so unlike the other
handlers the response size is not bounded by the request's range checks
and the capacity `expects` is reachable: the source requires
`rsp.size() >= 10 + (vendor.length() - 1) + 2 + product.length() + 2 +
version.length()`, computed in `size_t` — because the `- 1` wraps at a
zero-length vendor string, that value is
`13 + vendor.length() + product.length() + version.length()` for every
vendor length — and the engine's only caller (`execute_request`) hands
it a response span of exactly `max_pdu_size` bytes. -/
def process_read_device_information (b : backend_connector) (req : List Nat) :
    Except Nat (List Nat) × List backend_call :=
  if req.length ≠ read_device_identification_req_size then (.error errc.parse_error, [])
  else
    let fc := fetch8 req 0
    let mei := fetch8 req 1
    let code := fetch8 req 2
    let id := fetch8 req 3
    if mei ≠ 0x0e ∨ code ≠ 1 then
      (.ok (serialize_exception_response fc errc.modbus_exception_illegal_data_value), [])
    else if id ≠ 0 then
      (.ok (serialize_exception_response fc errc.modbus_exception_illegal_data_address), [])
    else
      let r := b.get_basic_device_identification
      let call := backend_call.get_basic_device_identification
      if is_modbus_exception r.1 then (.ok (serialize_exception_response fc r.1), [call])
      else if r.1 ≠ errc.none then (.error r.1, [call])
      else
        let vendor := r.2.1
        let product := r.2.2.1
        let version := r.2.2.2
        if max_pdu_size < read_device_identification_rsp_min_size +
            vendor.length + product.length + version.length + 3 then
          (.error errc.logic_error, [call])
        else
          (.ok (store8 fc ++ store8 0x0e ++ store8 code ++ store8 1 ++ store8 0 ++
            store8 0 ++ store8 3 ++
            store8 0 ++ store8 vendor.length ++ vendor ++
            store8 1 ++ store8 product.length ++ product ++
            store8 2 ++ store8 version.length ++ version), [call])

/-- Embeds `server_engine`: validates the minimum PDU length and
dispatches on the function-code byte; the `switch` is written as the
equivalent chain of comparisons. -/
def server_engine (b : backend_connector) (req : List Nat) :
    Except Nat (List Nat) × List backend_call :=
  if req.length < min_pdu_size then (.error errc.parse_error, [])
  else
    let fc := fetch8 req 0
    if fc = 1 ∨ fc = 2 then process_read_bits b req
    else if fc = 3 ∨ fc = 4 then process_read_registers b req
    else if fc = 5 then process_write_single_coil b req
    else if fc = 6 then process_write_single_register b req
    else if fc = 15 then process_write_multiple_coils b req
    else if fc = 16 then process_write_multiple_registers b req
    else if fc = 22 then process_mask_write_registers b req
    else if fc = 23 then process_read_write_multiple_registers b req
    else if fc = 43 then process_read_device_information b req
    else (.ok (serialize_exception_response fc errc.modbus_exception_illegal_function), [])

/-! ## Client-side response parsing (modbus_protocol_client.cpp)

Each parser returns the decoded payload or the error code of the
`mboxid_error` thrown (`errc.parse_error` from `validate_field` /
`validate_exact_rsp_length`, a Modbus exception code re-raised by
`check_for_exception`). -/

/-- Embeds `check_for_exception`: a 2-byte response whose first byte has
the `0x80` bit set is an exception PDU; its echoed function code and its
exception code are validated, then the exception is re-raised. The
source masks with `~msk` on `unsigned`, hence the 32-bit literal. -/
def check_for_exception (rsp : List Nat) (fc : Nat) : Except Nat Unit :=
  if rsp.length ≠ exception_rsp_size then .ok ()
  else
    let fc_rsp := rsp.getD 0 0
    let exception_code := rsp.getD 1 0
    if fc_rsp &&& 0x80 = 0 then .ok ()
    else if fc_rsp &&& 0xffffff7f ≠ fc then .error errc.parse_error
    else if ¬ is_modbus_exception exception_code then .error errc.parse_error
    else .error exception_code

/-- Embeds `parse_read_bits_response`; the `expects` inside `parse_bits`
is the `errc.logic_error` guard. -/
def parse_read_bits_response (src : List Nat) (fc : Nat) (cnt : Nat) :
    Except Nat (List Bool) :=
  match check_for_exception src fc with
  | .error e => .error e
  | .ok _ =>
    if src.length ≠ read_bits_rsp_min_size + bit_to_byte_count cnt - 1 then
      .error errc.parse_error
    else if fetch8 src 0 ≠ fc then .error errc.parse_error
    else if fetch8 src 1 ≠ bit_to_byte_count cnt then .error errc.parse_error
    else if (src.drop 2).length < bit_to_byte_count cnt then .error errc.logic_error
    else .ok (parse_bits (src.drop 2) cnt)

/-- Embeds `parse_read_registers_response`; the expected length is the
source's `read_registers_rsp_min_size + sizeof(uint16_t) * (cnt - 1)`
(callers always pass `cnt ≥ 1`). -/
def parse_read_registers_response (src : List Nat) (fc : Nat) (cnt : Nat) :
    Except Nat (List Nat) :=
  match check_for_exception src fc with
  | .error e => .error e
  | .ok _ =>
    if src.length ≠ read_registers_rsp_min_size + 2 * (cnt - 1) then
      .error errc.parse_error
    else if fetch8 src 0 ≠ fc then .error errc.parse_error
    else if fetch8 src 1 ≠ cnt * 2 then .error errc.parse_error
    else if (src.drop 2).length < cnt * 2 then .error errc.logic_error
    else .ok (parse_regs (src.drop 2) cnt)

/-- Embeds `parse_write_single_coil_response`. -/
def parse_write_single_coil_response (src : List Nat) (addr : Nat) (coil_on : Bool) :
    Except Nat Unit :=
  match check_for_exception src 5 with
  | .error e => .error e
  | .ok _ =>
    if src.length ≠ write_coil_rsp_size then .error errc.parse_error
    else if fetch8 src 0 ≠ 5 then .error errc.parse_error
    else if fetch16_be src 1 ≠ addr then .error errc.parse_error
    else if fetch16_be src 3 ≠ (if coil_on then single_coil_on else single_coil_off) then
      .error errc.parse_error
    else .ok ()

/-- Embeds `parse_write_single_register_response`. -/
def parse_write_single_register_response (src : List Nat) (addr : Nat) (val : Nat) :
    Except Nat Unit :=
  match check_for_exception src 6 with
  | .error e => .error e
  | .ok _ =>
    if src.length ≠ write_register_rsp_size then .error errc.parse_error
    else if fetch8 src 0 ≠ 6 then .error errc.parse_error
    else if fetch16_be src 1 ≠ addr then .error errc.parse_error
    else if fetch16_be src 3 ≠ val then .error errc.parse_error
    else .ok ()

/-- Embeds `parse_write_multiple_coils_response`. -/
def parse_write_multiple_coils_response (src : List Nat) (addr : Nat) (cnt : Nat) :
    Except Nat Unit :=
  match check_for_exception src 15 with
  | .error e => .error e
  | .ok _ =>
    if src.length ≠ write_multiple_coils_rsp_size then .error errc.parse_error
    else if fetch8 src 0 ≠ 15 then .error errc.parse_error
    else if fetch16_be src 1 ≠ addr then .error errc.parse_error
    else if fetch16_be src 3 ≠ cnt then .error errc.parse_error
    else .ok ()

/-- Embeds `parse_write_multiple_registers_response`. -/
def parse_write_multiple_registers_response (src : List Nat) (addr : Nat) (cnt : Nat) :
    Except Nat Unit :=
  match check_for_exception src 16 with
  | .error e => .error e
  | .ok _ =>
    if src.length ≠ write_multiple_registers_rsp_size then .error errc.parse_error
    else if fetch8 src 0 ≠ 16 then .error errc.parse_error
    else if fetch16_be src 1 ≠ addr then .error errc.parse_error
    else if fetch16_be src 3 ≠ cnt then .error errc.parse_error
    else .ok ()

/-- Embeds `parse_mask_write_register_response`. -/
def parse_mask_write_register_response (src : List Nat) (addr and_msk or_msk : Nat) :
    Except Nat Unit :=
  match check_for_exception src 22 with
  | .error e => .error e
  | .ok _ =>
    if src.length ≠ mask_write_register_rsp_size then .error errc.parse_error
    else if fetch8 src 0 ≠ 22 then .error errc.parse_error
    else if fetch16_be src 1 ≠ addr then .error errc.parse_error
    else if fetch16_be src 3 ≠ and_msk then .error errc.parse_error
    else if fetch16_be src 5 ≠ or_msk then .error errc.parse_error
    else .ok ()

/-- Embeds `parse_read_write_multiple_registers_response`, which
forwards to `parse_read_registers_response` with function code 0x17. -/
def parse_read_write_multiple_registers_response (src : List Nat) (cnt : Nat) :
    Except Nat (List Nat) :=
  parse_read_registers_response src 23 cnt

/-- Embeds the object loop of `parse_read_device_identification_response`:
read `(oid, olen, bytes)` records, assigning vendor / product code /
version by object id. -/
def parse_device_id_objects : Nat → List Nat →
    List Nat × List Nat × List Nat → Except Nat (List Nat × List Nat × List Nat)
  | 0, _, acc => .ok acc
  | k + 1, rest, acc =>
    if rest.length < 2 then .error errc.parse_error
    else
      let oid := fetch8 rest 0
      let olen := fetch8 rest 1
      if (rest.drop 2).length < olen then .error errc.parse_error
      else
        let val := (rest.drop 2).take olen
        if oid = 0 then parse_device_id_objects k (rest.drop (2 + olen)) (val, acc.2.1, acc.2.2)
        else if oid = 1 then parse_device_id_objects k (rest.drop (2 + olen)) (acc.1, val, acc.2.2)
        else if oid = 2 then parse_device_id_objects k (rest.drop (2 + olen)) (acc.1, acc.2.1, val)
        else .error errc.parse_error

/-- Embeds `parse_read_device_identification_response`: header fields are
validated, then exactly three objects are decoded. -/
def parse_read_device_identification_response (src : List Nat) :
    Except Nat (List Nat × List Nat × List Nat) :=
  match check_for_exception src 43 with
  | .error e => .error e
  | .ok _ =>
    if src.length < read_device_identification_rsp_min_size then .error errc.parse_error
    else if fetch8 src 0 ≠ 43 then .error errc.parse_error
    else if fetch8 src 1 ≠ 0x0e then .error errc.parse_error
    else if fetch8 src 2 ≠ 1 then .error errc.parse_error
    else if fetch8 src 4 ≠ 0 then .error errc.parse_error
    else if fetch8 src 6 ≠ 3 then .error errc.parse_error
    else parse_device_id_objects (fetch8 src 6) (src.drop 7) ([], [], [])

/-! ## General helper lemmas -/

theorem hi_lo_eq (v : Nat) (hv : v < 65536) : v / 256 % 256 * 256 + v % 256 = v := by
  omega

theorem serialize_regs_length (regs : List Nat) :
    (serialize_regs regs).length = 2 * regs.length := by
  induction regs with
  | nil => simp [serialize_regs]
  | cons v rest ih => simp [serialize_regs, store16_be, ih]; omega

theorem serialize_bits_length (bits : List Bool) :
    (serialize_bits bits).length = bit_to_byte_count bits.length := by
  generalize hn : bits.length = n
  induction n using Nat.strong_induction_on generalizing bits with
  | _ n ih =>
    cases bits with
    | nil =>
      simp [serialize_bits, bit_to_byte_count] at hn ⊢
      omega
    | cons b rest =>
      rw [serialize_bits]
      simp only [List.length_cons] at hn ⊢
      have hdlen : ((b :: rest).drop 8).length = rest.length + 1 - 8 := by
        simp
      have hlt : rest.length + 1 - 8 < n := by omega
      rw [ih _ hlt _ hdlen]
      simp only [bit_to_byte_count]
      omega

/-! ## Claim theorems -/

/-- C10: `is_modbus_exception(e)` holds exactly for the numeric values 1
through 11 of `errc` (the enumerators `modbus_exception_illegal_function`
through `modbus_exception_gateway_target`, including
`modbus_exception_not_defined = 9`); each such value is exactly the wire
exception-code byte that `serialize_exception_response` writes for it;
every other `errc` enumerator is classified as not a Modbus exception. -/
theorem is_modbus_exception_spec :
    (∀ e : Nat, is_modbus_exception e = true ↔ 1 ≤ e ∧ e ≤ 11) ∧
    (is_modbus_exception errc.modbus_exception_illegal_function = true ∧
     is_modbus_exception errc.modbus_exception_illegal_data_address = true ∧
     is_modbus_exception errc.modbus_exception_illegal_data_value = true ∧
     is_modbus_exception errc.modbus_exception_server_device_failure = true ∧
     is_modbus_exception errc.modbus_exception_acknowledge = true ∧
     is_modbus_exception errc.modbus_exception_server_device_busy = true ∧
     is_modbus_exception errc.modbus_exception_negative_acknowledge = true ∧
     is_modbus_exception errc.modbus_exception_memory_parity = true ∧
     is_modbus_exception errc.modbus_exception_not_defined = true ∧
     is_modbus_exception errc.modbus_exception_gateway_path = true ∧
     is_modbus_exception errc.modbus_exception_gateway_target = true) ∧
    (errc.modbus_exception_illegal_function = 0x01 ∧
     errc.modbus_exception_illegal_data_address = 0x02 ∧
     errc.modbus_exception_illegal_data_value = 0x03 ∧
     errc.modbus_exception_server_device_failure = 0x04 ∧
     errc.modbus_exception_acknowledge = 0x05 ∧
     errc.modbus_exception_server_device_busy = 0x06 ∧
     errc.modbus_exception_negative_acknowledge = 0x07 ∧
     errc.modbus_exception_memory_parity = 0x08 ∧
     errc.modbus_exception_not_defined = 0x09 ∧
     errc.modbus_exception_gateway_path = 0x0a ∧
     errc.modbus_exception_gateway_target = 0x0b) ∧
    (is_modbus_exception errc.none = false ∧
     is_modbus_exception errc.invalid_argument = false ∧
     is_modbus_exception errc.logic_error = false ∧
     is_modbus_exception errc.gai_error = false ∧
     is_modbus_exception errc.passive_open_error = false ∧
     is_modbus_exception errc.active_open_error = false ∧
     is_modbus_exception errc.parse_error = false ∧
     is_modbus_exception errc.timeout = false ∧
     is_modbus_exception errc.not_connected = false ∧
     is_modbus_exception errc.connection_closed = false) ∧
    (∀ fc e : Nat, is_modbus_exception e = true →
      (serialize_exception_response fc e).getD 1 0 = e) := by
  refine ⟨?_, by decide, by decide, by decide, ?_⟩
  · intro e
    simp [is_modbus_exception, errc.none, errc.invalid_argument]
    omega
  · intro fc e he
    have h11 : 0 < e ∧ e < 12 := by
      simpa [is_modbus_exception, errc.none, errc.invalid_argument] using he
    simp [serialize_exception_response, store8]
    omega

/-- Witness for C10 at concrete inputs. -/
theorem is_modbus_exception_spec_witness :
    (is_modbus_exception 3 = true ↔ 1 ≤ 3 ∧ 3 ≤ 11) ∧
    (serialize_exception_response 5 3).getD 1 0 = 3 :=
  ⟨is_modbus_exception_spec.1 3,
   is_modbus_exception_spec.2.2.2.2 5 3 (by decide)⟩

/-- C5 counterexample: a source buffer shorter than 7 bytes makes
`parse_mbap_header` fail with `errc.logic_error` (the `expects`
precondition), not with `errc.parse_error` as claimed. -/
theorem parse_mbap_header_short_cex :
    parse_mbap_header [0, 0, 0, 0, 0, 0] = Except.error errc.logic_error ∧
    parse_mbap_header [0, 0, 0, 0, 0, 0] ≠ Except.error errc.parse_error := by
  refine ⟨rfl, fun hcontra => ?_⟩
  have h1 : parse_mbap_header [0, 0, 0, 0, 0, 0] = Except.error errc.logic_error := rfl
  rw [h1] at hcontra
  exact absurd (Except.error.inj hcontra) (by decide)

/-- C5 amended: a buffer shorter than 7 bytes fails with
`errc.logic_error`; for a buffer of at least 7 bytes, the parse fails
with `errc.parse_error` exactly when the protocol identifier is nonzero
or the length field lies outside `[3, 254]`, and otherwise succeeds with
the header filled from the first 7 bytes. -/
theorem parse_mbap_header_spec (src : List Nat) :
    (src.length < mbap_header_size →
      parse_mbap_header src = Except.error errc.logic_error) ∧
    (mbap_header_size ≤ src.length →
      ((parse_mbap_header src = Except.error errc.parse_error ↔
        (fetch16_be src 2 ≠ 0 ∨ fetch16_be src 4 < 3 ∨ 254 < fetch16_be src 4)) ∧
       (fetch16_be src 2 = 0 → 3 ≤ fetch16_be src 4 → fetch16_be src 4 ≤ 254 →
        parse_mbap_header src = Except.ok
          { transaction_id := fetch16_be src 0
            protocol_id := fetch16_be src 2
            length := fetch16_be src 4
            unit_id := fetch8 src 6 }))) := by
  constructor
  · intro h
    simp [parse_mbap_header, h]
  · intro h
    have hn : ¬ src.length < mbap_header_size := by omega
    constructor
    · by_cases hp : fetch16_be src 2 = 0
      · by_cases hl : fetch16_be src 4 < 3 ∨ 254 < fetch16_be src 4
        · simp only [parse_mbap_header, min_pdu_size, max_pdu_size, if_neg hn]
          simp [hp]
          omega
        · simp only [parse_mbap_header, min_pdu_size, max_pdu_size, if_neg hn]
          simp [hp]
          omega
      · simp only [parse_mbap_header, min_pdu_size, max_pdu_size, if_neg hn]
        simp [hp]
    · intro hp hl3 hl254
      simp only [parse_mbap_header, min_pdu_size, max_pdu_size, if_neg hn]
      simp [hp]
      omega

/-- Witness for C5 (amended) at concrete inputs. -/
theorem parse_mbap_header_spec_witness :
    parse_mbap_header [0, 1, 0, 0, 0, 10, 5] =
      Except.ok { transaction_id := 1, protocol_id := 0, length := 10, unit_id := 5 } ∧
    parse_mbap_header [0, 0, 0] = Except.error errc.logic_error :=
  ⟨((parse_mbap_header_spec [0, 1, 0, 0, 0, 10, 5]).2 (by decide)).2
      (by decide) (by decide) (by decide),
   (parse_mbap_header_spec [0, 0, 0]).1 (by decide)⟩

/-- C8 counterexample: a header with `length = 2` serializes fine but the
parse rejects it (`length` must be at least `min_pdu_size + 1 = 3`), so
the claimed roundtrip range `[2, 254]` fails at its lower end. -/
theorem mbap_roundtrip_cex :
    parse_mbap_header (serialize_mbap_header
        { transaction_id := 0, protocol_id := 0, length := 2, unit_id := 0 }) ≠
      Except.ok { transaction_id := 0, protocol_id := 0, length := 2, unit_id := 0 } ∧
    parse_mbap_header (serialize_mbap_header
        { transaction_id := 0, protocol_id := 0, length := 2, unit_id := 0 }) =
      Except.error errc.parse_error := by
  have h1 : parse_mbap_header (serialize_mbap_header
      { transaction_id := 0, protocol_id := 0, length := 2, unit_id := 0 }) =
      Except.error errc.parse_error := rfl
  refine ⟨fun hcontra => ?_, h1⟩
  rw [h1] at hcontra
  exact Except.noConfusion hcontra

/-- C8 amended: for every header value with `protocol_id = 0` and
`length ∈ [3, 254]` (and fields within their wire types' ranges),
parsing the serialization yields the header back. -/
theorem mbap_roundtrip (h : mbap_header) (htid : h.transaction_id < 65536)
    (hpid : h.protocol_id = 0) (hlen3 : 3 ≤ h.length) (hlen254 : h.length ≤ 254)
    (huid : h.unit_id < 256) :
    parse_mbap_header (serialize_mbap_header h) = Except.ok h := by
  obtain ⟨t, p, len, u⟩ := h
  dsimp only at htid hpid hlen3 hlen254 huid
  subst hpid
  have hlen : len < 65536 := by omega
  have hs : serialize_mbap_header
      { transaction_id := t, protocol_id := 0, length := len, unit_id := u } =
      [t / 256 % 256, t % 256, 0, 0, len / 256 % 256, len % 256, u % 256] := by
    simp [serialize_mbap_header, store16_be, store8]
  rw [hs]
  simp only [parse_mbap_header, mbap_header_size, min_pdu_size, max_pdu_size,
    fetch16_be, fetch8, List.getD_cons_zero, List.getD_cons_succ,
    List.length_cons, List.length_nil]
  rw [hi_lo_eq t htid, hi_lo_eq len hlen, Nat.mod_eq_of_lt huid]
  rw [if_neg (by omega)]
  rw [if_neg (by norm_num)]
  rw [if_neg (by omega)]

/-- Witness for C8 (amended) at a concrete header. -/
theorem mbap_roundtrip_witness :
    parse_mbap_header (serialize_mbap_header
        { transaction_id := 7, protocol_id := 0, length := 6, unit_id := 1 }) =
      Except.ok { transaction_id := 7, protocol_id := 0, length := 6, unit_id := 1 } :=
  mbap_roundtrip _ (by decide) (by decide) (by decide) (by decide) (by decide)

/-- C6 counterexample: the exception-code byte `0x09` is not in the
claimed recognized set, yet `check_for_exception` accepts it and
re-raises it as `errc.modbus_exception_not_defined` instead of failing
with `errc.parse_error`. -/
theorem check_for_exception_cex :
    check_for_exception [0x81, 0x09] 1 =
      Except.error errc.modbus_exception_not_defined ∧
    check_for_exception [0x81, 0x09] 1 ≠ Except.error errc.parse_error := by
  refine ⟨rfl, fun hcontra => ?_⟩
  have h1 : check_for_exception [0x81, 0x09] 1 =
      Except.error errc.modbus_exception_not_defined := rfl
  rw [h1] at hcontra
  exact absurd (Except.error.inj hcontra) (by decide)

/-- Helper for C6: bit arithmetic of the exception function-code byte. -/
theorem exception_byte_arith : ∀ fc < 128,
    (128 + fc) &&& 0xffffff7f = fc ∧ ((128 + fc) &&& 128 ≠ 0) := by decide

/-- C6 amended: for a two-byte response whose first byte has bit `0x80`
set and low seven bits equal to the expected function code, the parser
fails with `errc.parse_error` when the second byte is not one of the
codes 0x01 through 0x0B (the values accepted by `is_modbus_exception`,
which include the placeholder 0x09 `modbus_exception_not_defined`), and
otherwise fails with that code as the corresponding Modbus exception. -/
theorem check_for_exception_spec (fc ec : Nat) (hfc : fc < 128) (hec : ec < 256) :
    check_for_exception [128 + fc, ec] fc =
      (if 1 ≤ ec ∧ ec ≤ 11 then Except.error ec else Except.error errc.parse_error) := by
  obtain ⟨harith1, harith2⟩ := exception_byte_arith fc hfc
  simp only [check_for_exception, exception_rsp_size, List.length_cons,
    List.length_nil, List.getD_cons_zero, List.getD_cons_succ]
  rw [if_neg (by omega)]
  rw [if_neg (by omega : ¬ (128 + fc) &&& 0x80 = 0)]
  rw [if_neg (by simp [harith1])]
  by_cases hm : 1 ≤ ec ∧ ec ≤ 11
  · rw [if_pos hm]
    rw [if_neg]
    simp [is_modbus_exception, errc.none, errc.invalid_argument]
    omega
  · rw [if_neg hm]
    rw [if_pos]
    simp [is_modbus_exception, errc.none, errc.invalid_argument]
    omega

/-- Witness for C6 (amended) at concrete inputs. -/
theorem check_for_exception_spec_witness :
    check_for_exception [128 + 1, 2] 1 =
      (if 1 ≤ 2 ∧ 2 ≤ 11 then Except.error 2 else Except.error errc.parse_error) ∧
    check_for_exception [128 + 1, 200] 1 =
      (if 1 ≤ 200 ∧ 200 ≤ 11 then Except.error 200 else Except.error errc.parse_error) :=
  ⟨check_for_exception_spec 1 2 (by decide) (by decide),
   check_for_exception_spec 1 200 (by decide) (by decide)⟩

/-- Concrete backend used by witnesses. -/
def testBackend : backend_connector where
  read_coils := fun _ cnt => (errc.none, List.replicate cnt true)
  read_discrete_inputs := fun _ cnt => (errc.none, List.replicate cnt false)
  read_holding_registers := fun _ cnt => (errc.none, List.replicate cnt 18)
  read_input_registers := fun _ cnt => (errc.none, List.replicate cnt 513)
  write_coils := fun _ _ => errc.none
  write_holding_registers := fun _ _ => errc.none
  write_read_holding_registers := fun _ _ _ cnt => (errc.none, List.replicate cnt 7)
  get_basic_device_identification := (errc.none, ([77, 66], [80], [49, 46, 50]))

/-- C3: a request PDU of length at least 2 whose first byte is none of
the eleven supported function codes makes the server engine produce the
two-byte exception response `[fc | 0x80, illegal_function]` (whose size,
its length, is 2) without invoking the backend. -/
theorem server_engine_unknown_function (b : backend_connector) (req : List Nat)
    (hlen : 2 ≤ req.length) (hbytes : ∀ x ∈ req, x < 256)
    (hfc : req.getD 0 0 ∉ ([1, 2, 3, 4, 5, 6, 15, 16, 22, 23, 43] : List Nat)) :
    server_engine b req =
      (Except.ok [128 ||| req.getD 0 0, errc.modbus_exception_illegal_function], []) ∧
    [128 ||| req.getD 0 0, errc.modbus_exception_illegal_function].length = 2 := by
  have hfcmem : req.getD 0 0 ∈ req := by
    cases req with
    | nil => simp at hlen
    | cons a t => simp [List.getD_cons_zero]
  have hfclt : req.getD 0 0 < 256 := hbytes _ hfcmem
  have hlor : 128 ||| req.getD 0 0 < 256 := by
    have h8 : (256 : Nat) = 2 ^ 8 := by norm_num
    rw [h8]
    exact Nat.bitwise_lt (by norm_num) (by rw [← h8]; exact hfclt)
  simp only [List.mem_cons, List.not_mem_nil] at hfc
  push_neg at hfc
  obtain ⟨h1, h2, h3, h4, h5, h6, h7, h8, h9, h10, h11, _⟩ := hfc
  simp only [server_engine, fetch8, min_pdu_size]
  rw [if_neg (by omega)]
  rw [if_neg (by simp only [not_or]; exact ⟨h1, h2⟩),
    if_neg (by simp only [not_or]; exact ⟨h3, h4⟩), if_neg h5, if_neg h6,
    if_neg h7, if_neg h8, if_neg h9, if_neg h10, if_neg h11]
  refine ⟨?_, rfl⟩
  simp only [serialize_exception_response, store8]
  rw [Nat.mod_eq_of_lt hlor]
  rfl

/-- Witness for C3 at a concrete request. -/
theorem server_engine_unknown_function_witness :
    server_engine testBackend [77, 0] =
      (Except.ok [128 ||| 77, errc.modbus_exception_illegal_function], []) :=
  (server_engine_unknown_function testBackend [77, 0] (by decide) (by decide)
    (by decide)).1

/-- C7: for 0x0F requests with in-range quantity whose byte-count field
is not `ceil(cnt/8)`, for 0x10 requests with in-range quantity whose
byte-count field is not `2*cnt`, and for 0x17 requests with in-range
write quantity whose write byte-count field is not `2*cnt_wr`, the
server engine answers with an `illegal_data_value` exception and does
not invoke the backend. -/
theorem server_engine_byte_count_mismatch :
    (∀ (b : backend_connector) (addr cnt bc : Nat) (rest : List Nat),
      addr < 65536 → 1 ≤ cnt → cnt ≤ 1968 → bc < 256 →
      bc ≠ bit_to_byte_count cnt → 1 ≤ rest.length →
      server_engine b ([15, addr / 256 % 256, addr % 256, cnt / 256 % 256,
          cnt % 256, bc] ++ rest) =
        (Except.ok [143, errc.modbus_exception_illegal_data_value], [])) ∧
    (∀ (b : backend_connector) (addr cnt bc : Nat) (rest : List Nat),
      addr < 65536 → 1 ≤ cnt → cnt ≤ 123 → bc < 256 →
      bc ≠ cnt * 2 → 2 ≤ rest.length →
      server_engine b ([16, addr / 256 % 256, addr % 256, cnt / 256 % 256,
          cnt % 256, bc] ++ rest) =
        (Except.ok [144, errc.modbus_exception_illegal_data_value], [])) ∧
    (∀ (b : backend_connector) (addr_rd cnt_rd addr_wr cnt_wr bc : Nat) (rest : List Nat),
      addr_rd < 65536 → addr_wr < 65536 → 1 ≤ cnt_rd → cnt_rd ≤ 125 →
      1 ≤ cnt_wr → cnt_wr ≤ 121 → bc < 256 → bc ≠ cnt_wr * 2 → 2 ≤ rest.length →
      server_engine b ([23, addr_rd / 256 % 256, addr_rd % 256, cnt_rd / 256 % 256,
          cnt_rd % 256, addr_wr / 256 % 256, addr_wr % 256, cnt_wr / 256 % 256,
          cnt_wr % 256, bc] ++ rest) =
        (Except.ok [151, errc.modbus_exception_illegal_data_value], [])) := by
  refine ⟨?_, ?_, ?_⟩
  · intro b addr cnt bc rest haddr hc1 hc2 hbc hne hrest
    simp only [server_engine, fetch8, min_pdu_size, List.cons_append,
      List.nil_append, List.getD_cons_zero, List.getD_cons_succ,
      List.length_cons]
    rw [if_neg (by omega)]
    norm_num
    simp only [process_write_multiple_coils, write_multiple_coils_req_min_size,
      fetch8, fetch16_be, List.cons_append, List.nil_append,
      List.getD_cons_zero, List.getD_cons_succ, List.length_cons]
    rw [if_neg (by omega)]
    rw [hi_lo_eq cnt (by omega)]
    rw [if_pos (Or.inr hne)]
    rfl
  · intro b addr cnt bc rest haddr hc1 hc2 hbc hne hrest
    simp only [server_engine, fetch8, min_pdu_size, List.cons_append,
      List.nil_append, List.getD_cons_zero, List.getD_cons_succ,
      List.length_cons]
    rw [if_neg (by omega)]
    norm_num
    simp only [process_write_multiple_registers, write_multiple_registers_req_min_size,
      fetch8, fetch16_be, List.cons_append, List.nil_append,
      List.getD_cons_zero, List.getD_cons_succ, List.length_cons]
    rw [if_neg (by omega)]
    rw [hi_lo_eq cnt (by omega)]
    rw [if_pos (Or.inr hne)]
    rfl
  · intro b addr_rd cnt_rd addr_wr cnt_wr bc rest hard harw hr1 hr2 hw1 hw2 hbc hne hrest
    simp only [server_engine, fetch8, min_pdu_size, List.cons_append,
      List.nil_append, List.getD_cons_zero, List.getD_cons_succ,
      List.length_cons]
    rw [if_neg (by omega)]
    norm_num
    simp only [process_read_write_multiple_registers,
      read_write_multiple_registers_req_min_size, fetch8, fetch16_be,
      List.cons_append, List.nil_append, List.getD_cons_zero,
      List.getD_cons_succ, List.length_cons]
    rw [if_neg (by omega)]
    rw [hi_lo_eq cnt_rd (by omega), hi_lo_eq cnt_wr (by omega)]
    rw [if_pos (Or.inr (Or.inr hne))]
    rfl

/-- Witness for C7 at concrete requests. -/
theorem server_engine_byte_count_mismatch_witness :
    server_engine testBackend [15, 0, 0, 0, 9, 1, 0] =
      (Except.ok [143, errc.modbus_exception_illegal_data_value], []) ∧
    server_engine testBackend [16, 0, 0, 0, 2, 5, 0, 0] =
      (Except.ok [144, errc.modbus_exception_illegal_data_value], []) ∧
    server_engine testBackend [23, 0, 0, 0, 1, 0, 0, 0, 1, 3, 0, 0] =
      (Except.ok [151, errc.modbus_exception_illegal_data_value], []) := by
  refine ⟨?_, ?_, ?_⟩
  · have := server_engine_byte_count_mismatch.1 testBackend 0 9 1 [0]
      (by decide) (by decide) (by decide) (by decide) (by decide) (by decide)
    simpa using this
  · have := server_engine_byte_count_mismatch.2.1 testBackend 0 2 5 [0, 0]
      (by decide) (by decide) (by decide) (by decide) (by decide) (by decide)
    simpa using this
  · have := server_engine_byte_count_mismatch.2.2 testBackend 0 1 0 1 3 [0, 0]
      (by decide) (by decide) (by decide) (by decide) (by decide) (by decide)
      (by decide) (by decide) (by decide)
    simpa using this

/-- Helper for C2: masked by a 16-bit `or_mask`, the source's 32-bit
complement of `and_mask` agrees with the 16-bit complement. -/
theorem mask_complement_eq (or_mask and_mask : Nat) (hor : or_mask < 65536) :
    or_mask &&& (4294967295 ^^^ and_mask) = or_mask &&& (65535 ^^^ and_mask) := by
  apply Nat.eq_of_testBit_eq
  intro i
  simp only [Nat.testBit_and, Nat.testBit_xor]
  by_cases hi : i < 16
  · have h32 : Nat.testBit 4294967295 i = true := by
      rw [show (4294967295 : Nat) = 2 ^ 32 - 1 from by norm_num,
        Nat.testBit_two_pow_sub_one]
      simp
      omega
    have h16 : Nat.testBit 65535 i = true := by
      rw [show (65535 : Nat) = 2 ^ 16 - 1 from by norm_num,
        Nat.testBit_two_pow_sub_one]
      simp
      omega
    rw [h32, h16]
  · have hfalse : Nat.testBit or_mask i = false := by
      apply Nat.testBit_lt_two_pow
      calc or_mask < 65536 := hor
        _ = 2 ^ 16 := by norm_num
        _ ≤ 2 ^ i := Nat.pow_le_pow_right (by norm_num) (by omega)
    rw [hfalse]
    simp

/-- C2: for every mask_write_register request, when the backend's read
of the single register at `addr` yields `cur`, the server performs
exactly a read of one register followed by a write of one register, and
the written value is `(cur &&& and_mask) ||| (or_mask &&& ~and_mask)`
(complement taken within 16 bits). -/
theorem mask_write_semantics (b : backend_connector)
    (addr and_mask or_mask cur : Nat)
    (haddr : addr < 65536) (hand : and_mask < 65536) (hor : or_mask < 65536)
    (hread : b.read_holding_registers addr 1 = (errc.none, [cur])) :
    (server_engine b [22, addr / 256 % 256, addr % 256, and_mask / 256 % 256,
        and_mask % 256, or_mask / 256 % 256, or_mask % 256]).2 =
      [backend_call.read_holding_registers addr 1,
       backend_call.write_holding_registers addr
         [(cur &&& and_mask) ||| (or_mask &&& (65535 ^^^ and_mask))]] := by
  simp only [server_engine, fetch8, min_pdu_size, List.getD_cons_zero,
    List.getD_cons_succ, List.length_cons, List.length_nil]
  rw [if_neg (by omega)]
  norm_num
  simp only [process_mask_write_registers, mask_write_register_req_size,
    fetch8, fetch16_be, List.getD_cons_zero, List.getD_cons_succ,
    List.length_cons, List.length_nil]
  rw [if_neg (by omega)]
  rw [hi_lo_eq addr haddr, hi_lo_eq and_mask hand, hi_lo_eq or_mask hor]
  rw [hread]
  simp only []
  rw [if_pos trivial]
  rw [if_neg (by simp)]
  rw [List.getD_cons_zero]
  rw [mask_complement_eq or_mask and_mask hor]
  split
  · rfl
  · split
    · rfl
    · rfl

/-- Witness for C2 at concrete inputs (current value 18 = 0x0012,
masks 0x00F2 / 0x0025, as in the Modbus specification's example). -/
theorem mask_write_semantics_witness :
    (server_engine testBackend [22, 0, 4, 0, 0xf2, 0, 0x25]).2 =
      [backend_call.read_holding_registers 4 1,
       backend_call.write_holding_registers 4
         [(18 &&& 0xf2) ||| (0x25 &&& (65535 ^^^ 0xf2))]] := by
  have := mask_write_semantics testBackend 4 0xf2 0x25 18
    (by decide) (by decide) (by decide) rfl
  simpa using this

/-! ## Client engine (modbus_tcp_client.cpp)

The client `context` holds a transport handle (`unique_fd fd`, absent
when `fd == -1`), the 16-bit transaction counter and the unit id. The
physical send and receive are external; one transaction's interaction
with the transport is summarized by a `transport_outcome`: either a
received frame or the error code of the `mboxid_error` that
`send_frame` / `receive_frame` threw. -/

structure client_context where
  connected : Bool
  transaction_id : Nat
  unit_id : Nat
deriving DecidableEq, Repr

inductive transport_outcome where
  | frame (header : mbap_header) (pdu : List Nat)
  | fail (e : Nat)
deriving DecidableEq, Repr

/-- Embeds the control flow of `send_receive_pdu`: without a transport
handle the call fails with `not_connected`; otherwise the transaction
counter is pre-incremented (16-bit wrap), the frame exchange runs, a
thrown `connection_closed` resets the handle before re-throwing while
any other `mboxid_error` leaves it in place, and a received header must
echo the transaction id and unit id or the call fails with
`parse_error`. -/
def send_receive_pdu (ctx : client_context) (outcome : transport_outcome) :
    client_context × Except Nat (List Nat) :=
  if ¬ctx.connected then (ctx, .error errc.not_connected)
  else
    let ctx1 := { ctx with transaction_id := (ctx.transaction_id + 1) % 65536 }
    match outcome with
    | .fail e =>
      if e = errc.connection_closed then
        ({ ctx1 with connected := false }, .error e)
      else (ctx1, .error e)
    | .frame header pdu =>
      if header.transaction_id ≠ ctx1.transaction_id ∨
          header.unit_id ≠ ctx1.unit_id then
        (ctx1, .error errc.parse_error)
      else (ctx1, .ok pdu)

/-- C9: a `connection_closed` failure during the frame exchange discards
the transport handle and propagates, so every subsequent operation on
the same context fails with `not_connected` (until a reconnect); a
`timeout` failure retains the handle. -/
theorem send_receive_pdu_failure_model (ctx : client_context)
    (hconn : ctx.connected = true) :
    ((send_receive_pdu ctx (.fail errc.connection_closed)).1.connected = false ∧
     (send_receive_pdu ctx (.fail errc.connection_closed)).2 =
       .error errc.connection_closed ∧
     (∀ o : transport_outcome,
       (send_receive_pdu (send_receive_pdu ctx (.fail errc.connection_closed)).1 o).2 =
         .error errc.not_connected)) ∧
    ((send_receive_pdu ctx (.fail errc.timeout)).1.connected = true ∧
     (send_receive_pdu ctx (.fail errc.timeout)).2 = .error errc.timeout) := by
  refine ⟨⟨?_, ?_, ?_⟩, ?_, ?_⟩
  · simp [send_receive_pdu, hconn]
  · simp [send_receive_pdu, hconn]
  · intro o
    simp [send_receive_pdu, hconn]
  · simp [send_receive_pdu, hconn, errc.timeout, errc.connection_closed]
  · simp [send_receive_pdu, hconn, errc.timeout, errc.connection_closed]

/-- Witness for C9 at a concrete context. -/
theorem send_receive_pdu_failure_model_witness :
    ((send_receive_pdu { connected := true, transaction_id := 0, unit_id := 1 }
        (.fail errc.connection_closed)).1.connected = false) ∧
    ((send_receive_pdu (send_receive_pdu
        { connected := true, transaction_id := 0, unit_id := 1 }
        (.fail errc.connection_closed)).1 (.fail errc.timeout)).2 =
      .error errc.not_connected) :=
  ⟨(send_receive_pdu_failure_model
      { connected := true, transaction_id := 0, unit_id := 1 } rfl).1.1,
   (send_receive_pdu_failure_model
      { connected := true, transaction_id := 0, unit_id := 1 } rfl).1.2.2
      (.fail errc.timeout)⟩

/-! ## Server reactor timers (modbus_tcp_server_impl.cpp)

The impl header declares `set_idle_timeout`, `set_request_complete_timeout`
and `determine_deadline`, `modbus_tcp_server.cpp` forwards to them and the
tests exercise `set_idle_timeout`, but their definitions and the
per-client arms of `calc_poll_timeout` are not in the tree (the in-tree
`calc_poll_timeout` starts its accumulator at `INT_MAX` and folds only
the backend-tick term). The missing parts are modelled from the spec. -/

/-- Modelled from the spec: a reactor client block with its deadline (the
idle or request-assembly deadline, when the respective timeout is
configured). Missing from src: the deadline fields of
`client_control_block` maintained by `determine_deadline`. -/
structure reactor_client where
  id : Nat
  deadline : Option Nat
deriving DecidableEq, Repr

/-- Modelled from the spec: the reactor state as far as timers are
concerned — the current monotonic time, the next backend-tick instant
(`+1s` from the last tick), and the client blocks. -/
structure reactor_state where
  now : Nat
  ts_next_backend_ticker : Nat
  clients : List reactor_client
deriving DecidableEq, Repr

/-- Deadlines of the clients that have one configured. -/
def deadlines (s : reactor_state) : List Nat :=
  s.clients.filterMap (fun c => c.deadline)

/-- Modelled from the spec: arming a client's idle deadline at connect
time or at completion of a request — `t0 + T` when `idle_timeout = T` is
configured, none otherwise. Missing from src: `set_idle_timeout` and the
deadline maintenance it enables. -/
def set_idle_deadline (idle_timeout : Option Nat) (t0 : Nat)
    (c : reactor_client) : reactor_client :=
  { c with deadline := idle_timeout.map (fun T => t0 + T) }

/-- Modelled from the spec: the per-iteration poll timeout — the minimum
of the time remaining until the next backend tick and the nearest
per-client deadline, zero if any deadline has already passed; written as
the source's fold starting from `INT_MAX`. Missing from src: the
per-client arms of `calc_poll_timeout`. -/
def calc_poll_timeout (s : reactor_state) : Nat :=
  if s.ts_next_backend_ticker ≤ s.now ∨ (deadlines s).any (fun d => decide (d ≤ s.now)) then 0
  else (deadlines s).foldl (fun acc d => min acc (d - s.now))
    (min 2147483647 (s.ts_next_backend_ticker - s.now))

/-- Modelled from the spec: expired client deadlines close the client —
one sweep removes every client whose deadline has passed. -/
def close_expired_clients (s : reactor_state) : reactor_state :=
  { s with clients := s.clients.filter (fun c =>
      match c.deadline with
      | some d => decide (s.now < d)
      | none => true) }

/-! ### Fold-minimum helper lemmas -/

theorem foldl_min_le_init (l : List Nat) (a : Nat) : l.foldl min a ≤ a := by
  induction l generalizing a with
  | nil => simp
  | cons x t ih =>
    simp only [List.foldl_cons]
    exact le_trans (ih (min a x)) (Nat.min_le_left a x)

theorem foldl_min_le_mem (l : List Nat) (a x : Nat) (hx : x ∈ l) :
    l.foldl min a ≤ x := by
  induction l generalizing a with
  | nil => simp at hx
  | cons y t ih =>
    simp only [List.foldl_cons]
    rcases List.mem_cons.mp hx with h | h
    · subst h
      exact le_trans (foldl_min_le_init t (min a x)) (Nat.min_le_right a x)
    · exact ih (min a y) h

theorem foldl_min_attained (l : List Nat) (a : Nat) :
    l.foldl min a = a ∨ l.foldl min a ∈ l := by
  induction l generalizing a with
  | nil => simp
  | cons x t ih =>
    simp only [List.foldl_cons]
    rcases ih (min a x) with h | h
    · rcases Nat.le_total a x with hax | hxa
      · left
        rw [h, Nat.min_eq_left hax]
      · right
        rw [h, Nat.min_eq_right hxa]
        exact List.mem_cons_self x t
    · right
      exact List.mem_cons_of_mem x h

/-- C4 (spec-modelled): with `idle_timeout = T` configured, a client
whose idle deadline was armed at `t0` (its connect time or its last
completed request) is kept by the deadline sweep exactly while
`now < t0 + T` — it is closed `T` after `t0`; and the per-iteration poll
timeout is zero exactly when the backend tick or some client deadline
has passed, is otherwise a lower bound of the tick remainder and of
every client's deadline remainder, and attains one of them. -/
theorem reactor_idle_timeout_spec :
    (∀ (T t0 : Nat) (c : reactor_client) (s : reactor_state),
      set_idle_deadline (some T) t0 c ∈ (close_expired_clients s).clients ↔
        set_idle_deadline (some T) t0 c ∈ s.clients ∧ s.now < t0 + T) ∧
    (∀ s : reactor_state,
      (calc_poll_timeout s = 0 ↔
        s.ts_next_backend_ticker ≤ s.now ∨ ∃ d ∈ deadlines s, d ≤ s.now) ∧
      (s.ts_next_backend_ticker - s.now ≤ 2147483647 →
        calc_poll_timeout s ≤ s.ts_next_backend_ticker - s.now ∧
        (∀ d ∈ deadlines s, calc_poll_timeout s ≤ d - s.now) ∧
        (calc_poll_timeout s = s.ts_next_backend_ticker - s.now ∨
          ∃ d ∈ deadlines s, calc_poll_timeout s = d - s.now))) := by
  constructor
  · intro T t0 c s
    simp only [close_expired_clients, List.mem_filter, set_idle_deadline,
      Option.map_some]
    simp
  · intro s
    have hfold : (deadlines s).foldl (fun acc d => min acc (d - s.now))
        (min 2147483647 (s.ts_next_backend_ticker - s.now)) =
        ((deadlines s).map (fun d => d - s.now)).foldl min
          (min 2147483647 (s.ts_next_backend_ticker - s.now)) := by
      rw [List.foldl_map]
    constructor
    · constructor
      · intro h0
        by_contra hcon
        push_neg at hcon
        obtain ⟨htick, hdl⟩ := hcon
        have hcond : ¬(s.ts_next_backend_ticker ≤ s.now ∨
            (deadlines s).any (fun d => decide (d ≤ s.now))) := by
          simp only [List.any_eq_true, not_or, decide_eq_true_eq]
          refine ⟨by omega, ?_⟩
          rintro ⟨d, hd, hdle⟩
          have := hdl d hd
          omega
        rw [calc_poll_timeout, if_neg hcond, hfold] at h0
        rcases foldl_min_attained ((deadlines s).map (fun d => d - s.now))
            (min 2147483647 (s.ts_next_backend_ticker - s.now)) with hc | hc
        · rw [h0] at hc
          have : s.now < s.ts_next_backend_ticker := by omega
          have : 0 < min 2147483647 (s.ts_next_backend_ticker - s.now) := by
            omega
          omega
        · rw [h0] at hc
          obtain ⟨d, hd, hdz⟩ := List.mem_map.mp hc
          have := hdl d hd
          omega
      · intro h
        rw [calc_poll_timeout, if_pos]
        simp only [List.any_eq_true, decide_eq_true_eq]
        rcases h with h | ⟨d, hd, hdle⟩
        · exact Or.inl h
        · exact Or.inr ⟨d, hd, hdle⟩
    · intro hcap
      by_cases hcond : s.ts_next_backend_ticker ≤ s.now ∨
          (deadlines s).any (fun d => decide (d ≤ s.now))
      · have h0 : calc_poll_timeout s = 0 := by
          rw [calc_poll_timeout, if_pos hcond]
        refine ⟨by omega, fun d _ => by omega, ?_⟩
        simp only [List.any_eq_true, decide_eq_true_eq] at hcond
        rcases hcond with h | ⟨d, hd, hdle⟩
        · left
          omega
        · right
          exact ⟨d, hd, by omega⟩
      · have hcalc : calc_poll_timeout s =
            ((deadlines s).map (fun d => d - s.now)).foldl min
              (min 2147483647 (s.ts_next_backend_ticker - s.now)) := by
          rw [calc_poll_timeout, if_neg hcond, hfold]
        have hinit : min 2147483647 (s.ts_next_backend_ticker - s.now) =
            s.ts_next_backend_ticker - s.now := Nat.min_eq_right hcap
        refine ⟨?_, ?_, ?_⟩
        · rw [hcalc]
          exact le_trans (foldl_min_le_init _ _) (Nat.min_le_right _ _)
        · intro d hd
          rw [hcalc]
          exact foldl_min_le_mem _ _ _ (List.mem_map.mpr ⟨d, hd, rfl⟩)
        · rcases foldl_min_attained ((deadlines s).map (fun d => d - s.now))
              (min 2147483647 (s.ts_next_backend_ticker - s.now)) with hc | hc
          · left
            rw [hcalc, hc, hinit]
          · right
            obtain ⟨d, hd, hdz⟩ := List.mem_map.mp hc
            exact ⟨d, hd, by rw [hcalc, ← hdz]⟩

/-- Witness for C4 at a concrete reactor state: one client armed at
`t0 = 5` with `T = 10`, current time 20, next tick at 1000. -/
theorem reactor_idle_timeout_spec_witness :
    (set_idle_deadline (some 10) 5 { id := 1, deadline := none } ∈
      (close_expired_clients
        { now := 20, ts_next_backend_ticker := 1000,
          clients := [set_idle_deadline (some 10) 5 { id := 1, deadline := none }]
        }).clients ↔
      set_idle_deadline (some 10) 5 { id := 1, deadline := none } ∈
        [set_idle_deadline (some 10) 5 { id := 1, deadline := none }] ∧ 20 < 5 + 10) ∧
    (calc_poll_timeout
        { now := 20, ts_next_backend_ticker := 1000,
          clients := [set_idle_deadline (some 10) 5 { id := 1, deadline := none }] } = 0 ↔
      1000 ≤ 20 ∨ ∃ d ∈ deadlines
        { now := 20, ts_next_backend_ticker := 1000,
          clients := [set_idle_deadline (some 10) 5 { id := 1, deadline := none }] },
        d ≤ 20) :=
  ⟨reactor_idle_timeout_spec.1 10 5 { id := 1, deadline := none }
      { now := 20, ts_next_backend_ticker := 1000,
        clients := [set_idle_deadline (some 10) 5 { id := 1, deadline := none }] },
   (reactor_idle_timeout_spec.2
      { now := 20, ts_next_backend_ticker := 1000,
        clients := [set_idle_deadline (some 10) 5 { id := 1, deadline := none }] }).1⟩

/-! ### Response-parse roundtrip lemmas (client side of C1) -/

theorem bit_to_byte_count_pos (n : Nat) (h : 1 ≤ n) : 1 ≤ bit_to_byte_count n := by
  simp only [bit_to_byte_count]
  omega

theorem parse_read_bits_rt (fc : Nat) (bits : List Bool) (hge : 1 ≤ bits.length) :
    parse_read_bits_response ([fc, bit_to_byte_count bits.length] ++ serialize_bits bits)
      fc bits.length = .ok bits := by
  have hsl : (serialize_bits bits).length = bit_to_byte_count bits.length :=
    serialize_bits_length bits
  have hbtc1 : 1 ≤ bit_to_byte_count bits.length := bit_to_byte_count_pos _ hge
  have hchk : check_for_exception
      ([fc, bit_to_byte_count bits.length] ++ serialize_bits bits) fc = .ok () := by
    rw [check_for_exception, if_pos]
    simp only [List.cons_append, List.nil_append, List.length_cons, hsl,
      exception_rsp_size]
    omega
  simp only [parse_read_bits_response, hchk]
  simp only [List.cons_append, List.nil_append, List.length_cons, hsl, fetch8,
    List.getD_cons_zero, List.getD_cons_succ, read_bits_rsp_min_size,
    List.drop_succ_cons, List.drop_zero]
  rw [if_neg (by omega)]
  rw [if_neg (by omega)]
  rw [if_neg (by omega)]
  rw [if_neg (by omega)]
  rw [parse_serialize_bits]

theorem parse_read_registers_rt (fc : Nat) (regs : List Nat) (hge : 1 ≤ regs.length)
    (hv : ∀ v ∈ regs, v < 65536) :
    parse_read_registers_response ([fc, regs.length * 2] ++ serialize_regs regs)
      fc regs.length = .ok regs := by
  have hsl : (serialize_regs regs).length = 2 * regs.length :=
    serialize_regs_length regs
  have hchk : check_for_exception
      ([fc, regs.length * 2] ++ serialize_regs regs) fc = .ok () := by
    rw [check_for_exception, if_pos]
    simp only [List.cons_append, List.nil_append, List.length_cons, hsl,
      exception_rsp_size]
    omega
  simp only [parse_read_registers_response, hchk]
  simp only [List.cons_append, List.nil_append, List.length_cons, hsl, fetch8,
    List.getD_cons_zero, List.getD_cons_succ, read_registers_rsp_min_size,
    List.drop_succ_cons, List.drop_zero]
  rw [if_neg (by omega)]
  rw [if_neg (by omega)]
  rw [if_neg (by omega)]
  rw [if_neg (by omega)]
  rw [parse_serialize_regs regs hv]

/-! ### Server-engine output lemmas (server side of C1) -/

theorem engine_read_coils (b : backend_connector) (addr cnt : Nat) (bits : List Bool)
    (haddr : addr < 65536) (h1 : 1 ≤ cnt) (h2 : cnt ≤ 2000)
    (hb : b.read_coils addr cnt = (errc.none, bits)) (hlen : bits.length = cnt) :
    server_engine b [1, addr / 256 % 256, addr % 256, cnt / 256 % 256, cnt % 256] =
      (.ok ([1, bit_to_byte_count cnt] ++ serialize_bits bits),
       [backend_call.read_coils addr cnt]) := by
  have hcnt : cnt < 65536 := by omega
  have hbtc : bit_to_byte_count cnt < 256 := by
    simp only [bit_to_byte_count]
    omega
  simp only [server_engine, fetch8, min_pdu_size, List.getD_cons_zero,
    List.getD_cons_succ, List.length_cons, List.length_nil]
  rw [if_neg (by omega)]
  norm_num
  simp only [process_read_bits, read_bits_req_size, fetch8, fetch16_be,
    List.getD_cons_zero, List.getD_cons_succ, List.length_cons, List.length_nil]
  rw [if_neg (by omega)]
  rw [hi_lo_eq addr haddr, hi_lo_eq cnt hcnt]
  rw [if_neg (by simp only [min_read_bits, max_read_bits, Decidable.not_not]; exact ⟨h1, h2⟩)]
  simp [hb, hlen, is_modbus_exception, errc.none, errc.invalid_argument, store8,
    Nat.mod_eq_of_lt hbtc]

theorem engine_read_discrete_inputs (b : backend_connector) (addr cnt : Nat)
    (bits : List Bool) (haddr : addr < 65536) (h1 : 1 ≤ cnt) (h2 : cnt ≤ 2000)
    (hb : b.read_discrete_inputs addr cnt = (errc.none, bits))
    (hlen : bits.length = cnt) :
    server_engine b [2, addr / 256 % 256, addr % 256, cnt / 256 % 256, cnt % 256] =
      (.ok ([2, bit_to_byte_count cnt] ++ serialize_bits bits),
       [backend_call.read_discrete_inputs addr cnt]) := by
  have hcnt : cnt < 65536 := by omega
  have hbtc : bit_to_byte_count cnt < 256 := by
    simp only [bit_to_byte_count]
    omega
  simp only [server_engine, fetch8, min_pdu_size, List.getD_cons_zero,
    List.getD_cons_succ, List.length_cons, List.length_nil]
  rw [if_neg (by omega)]
  norm_num
  simp only [process_read_bits, read_bits_req_size, fetch8, fetch16_be,
    List.getD_cons_zero, List.getD_cons_succ, List.length_cons, List.length_nil]
  rw [if_neg (by omega)]
  rw [hi_lo_eq addr haddr, hi_lo_eq cnt hcnt]
  rw [if_neg (by simp only [min_read_bits, max_read_bits, Decidable.not_not]; exact ⟨h1, h2⟩)]
  simp [hb, hlen, is_modbus_exception, errc.none, errc.invalid_argument, store8,
    Nat.mod_eq_of_lt hbtc]

theorem engine_read_holding_registers (b : backend_connector) (addr cnt : Nat)
    (regs : List Nat) (haddr : addr < 65536) (h1 : 1 ≤ cnt) (h2 : cnt ≤ 125)
    (hb : b.read_holding_registers addr cnt = (errc.none, regs))
    (hlen : regs.length = cnt) :
    server_engine b [3, addr / 256 % 256, addr % 256, cnt / 256 % 256, cnt % 256] =
      (.ok ([3, cnt * 2] ++ serialize_regs regs),
       [backend_call.read_holding_registers addr cnt]) := by
  have hcnt : cnt < 65536 := by omega
  have hb2 : cnt * 2 < 256 := by omega
  simp only [server_engine, fetch8, min_pdu_size, List.getD_cons_zero,
    List.getD_cons_succ, List.length_cons, List.length_nil]
  rw [if_neg (by omega)]
  norm_num
  simp only [process_read_registers, read_registers_req_size, fetch8, fetch16_be,
    List.getD_cons_zero, List.getD_cons_succ, List.length_cons, List.length_nil]
  rw [if_neg (by omega)]
  rw [hi_lo_eq addr haddr, hi_lo_eq cnt hcnt]
  rw [if_neg (by simp only [min_read_registers, max_read_registers, Decidable.not_not]; exact ⟨h1, h2⟩)]
  simp [hb, hlen, is_modbus_exception, errc.none, errc.invalid_argument, store8,
    Nat.mod_eq_of_lt hb2]

theorem engine_read_input_registers (b : backend_connector) (addr cnt : Nat)
    (regs : List Nat) (haddr : addr < 65536) (h1 : 1 ≤ cnt) (h2 : cnt ≤ 125)
    (hb : b.read_input_registers addr cnt = (errc.none, regs))
    (hlen : regs.length = cnt) :
    server_engine b [4, addr / 256 % 256, addr % 256, cnt / 256 % 256, cnt % 256] =
      (.ok ([4, cnt * 2] ++ serialize_regs regs),
       [backend_call.read_input_registers addr cnt]) := by
  have hcnt : cnt < 65536 := by omega
  have hb2 : cnt * 2 < 256 := by omega
  simp only [server_engine, fetch8, min_pdu_size, List.getD_cons_zero,
    List.getD_cons_succ, List.length_cons, List.length_nil]
  rw [if_neg (by omega)]
  norm_num
  simp only [process_read_registers, read_registers_req_size, fetch8, fetch16_be,
    List.getD_cons_zero, List.getD_cons_succ, List.length_cons, List.length_nil]
  rw [if_neg (by omega)]
  rw [hi_lo_eq addr haddr, hi_lo_eq cnt hcnt]
  rw [if_neg (by simp only [min_read_registers, max_read_registers, Decidable.not_not]; exact ⟨h1, h2⟩)]
  simp [hb, hlen, is_modbus_exception, errc.none, errc.invalid_argument, store8,
    Nat.mod_eq_of_lt hb2]

theorem engine_write_single_coil (b : backend_connector) (addr : Nat) (coil_on : Bool)
    (haddr : addr < 65536)
    (hb : b.write_coils addr [coil_on] = errc.none) :
    server_engine b [5, addr / 256 % 256, addr % 256,
        (if coil_on then single_coil_on else single_coil_off) / 256 % 256,
        (if coil_on then single_coil_on else single_coil_off) % 256] =
      (.ok [5, addr / 256 % 256, addr % 256,
        (if coil_on then single_coil_on else single_coil_off) / 256 % 256,
        (if coil_on then single_coil_on else single_coil_off) % 256],
       [backend_call.write_coils addr [coil_on]]) := by
  have hval : (if coil_on then single_coil_on else single_coil_off) < 65536 := by
    cases coil_on <;> simp [single_coil_on, single_coil_off]
  simp only [server_engine, fetch8, min_pdu_size, List.getD_cons_zero,
    List.getD_cons_succ, List.length_cons, List.length_nil]
  rw [if_neg (by omega)]
  norm_num
  simp only [process_write_single_coil, write_coil_req_size, fetch8, fetch16_be,
    List.getD_cons_zero, List.getD_cons_succ, List.length_cons, List.length_nil]
  rw [if_neg (by omega)]
  simp only [hi_lo_eq addr haddr,
    hi_lo_eq (if coil_on then single_coil_on else single_coil_off) hval]
  rw [if_neg (by cases coil_on <;> simp [single_coil_on, single_coil_off])]
  have hbits : (decide ((if coil_on then single_coil_on else single_coil_off) =
      single_coil_on)) = coil_on := by
    cases coil_on <;> simp [single_coil_on, single_coil_off]
  simp only [hbits, hb]
  simp [is_modbus_exception, errc.none, errc.invalid_argument, store8, store16_be,
    Nat.mod_eq_of_lt haddr, hi_lo_eq addr haddr,
    hi_lo_eq (if coil_on then single_coil_on else single_coil_off) hval]

theorem engine_write_single_register (b : backend_connector) (addr val : Nat)
    (haddr : addr < 65536) (hval : val < 65536)
    (hb : b.write_holding_registers addr [val] = errc.none) :
    server_engine b [6, addr / 256 % 256, addr % 256, val / 256 % 256, val % 256] =
      (.ok [6, addr / 256 % 256, addr % 256, val / 256 % 256, val % 256],
       [backend_call.write_holding_registers addr [val]]) := by
  simp only [server_engine, fetch8, min_pdu_size, List.getD_cons_zero,
    List.getD_cons_succ, List.length_cons, List.length_nil]
  rw [if_neg (by omega)]
  norm_num
  simp only [process_write_single_register, write_register_req_size, fetch8,
    fetch16_be, List.getD_cons_zero, List.getD_cons_succ, List.length_cons,
    List.length_nil]
  rw [if_neg (by omega)]
  rw [hi_lo_eq addr haddr, hi_lo_eq val hval]
  simp only [hb]
  simp [is_modbus_exception, errc.none, errc.invalid_argument, store8, store16_be]

theorem drop_two_add (a b : Nat) (l : List Nat) (n : Nat) :
    (a :: b :: l).drop (2 + n) = l.drop n := by
  rw [show 2 + n = n + 1 + 1 from by omega]
  rw [List.drop_succ_cons, List.drop_succ_cons]

theorem engine_write_multiple_coils (b : backend_connector) (addr : Nat)
    (bits : List Bool) (haddr : addr < 65536) (h1 : 1 ≤ bits.length)
    (h2 : bits.length ≤ 1968) (hb : b.write_coils addr bits = errc.none) :
    server_engine b ([15, addr / 256 % 256, addr % 256, bits.length / 256 % 256,
        bits.length % 256, bit_to_byte_count bits.length] ++ serialize_bits bits) =
      (.ok [15, addr / 256 % 256, addr % 256, bits.length / 256 % 256,
        bits.length % 256],
       [backend_call.write_coils addr bits]) := by
  have hcnt : bits.length < 65536 := by omega
  have hsl : (serialize_bits bits).length = bit_to_byte_count bits.length :=
    serialize_bits_length bits
  simp only [server_engine, fetch8, min_pdu_size, List.cons_append,
    List.nil_append, List.getD_cons_zero, List.getD_cons_succ, List.length_cons]
  rw [if_neg (by omega)]
  norm_num
  simp only [process_write_multiple_coils, write_multiple_coils_req_min_size,
    fetch8, fetch16_be, List.cons_append, List.nil_append, List.getD_cons_zero,
    List.getD_cons_succ, List.length_cons, List.drop_succ_cons, List.drop_zero]
  rw [if_neg (by simp only [hsl, bit_to_byte_count]; omega)]
  rw [hi_lo_eq addr haddr, hi_lo_eq bits.length hcnt]
  rw [if_neg (by simp only [min_write_coils, max_write_coils, not_or,
    Decidable.not_not]; exact ⟨⟨h1, h2⟩, trivial⟩)]
  rw [if_neg (by simp only [hsl, bit_to_byte_count]; omega)]
  rw [parse_serialize_bits]
  simp [hb, is_modbus_exception, errc.none, errc.invalid_argument, store8,
    store16_be]

theorem engine_write_multiple_registers (b : backend_connector) (addr : Nat)
    (regs : List Nat) (haddr : addr < 65536) (h1 : 1 ≤ regs.length)
    (h2 : regs.length ≤ 123) (hv : ∀ v ∈ regs, v < 65536)
    (hb : b.write_holding_registers addr regs = errc.none) :
    server_engine b ([16, addr / 256 % 256, addr % 256, regs.length / 256 % 256,
        regs.length % 256, regs.length * 2] ++ serialize_regs regs) =
      (.ok [16, addr / 256 % 256, addr % 256, regs.length / 256 % 256,
        regs.length % 256],
       [backend_call.write_holding_registers addr regs]) := by
  have hcnt : regs.length < 65536 := by omega
  have hsl : (serialize_regs regs).length = 2 * regs.length :=
    serialize_regs_length regs
  simp only [server_engine, fetch8, min_pdu_size, List.cons_append,
    List.nil_append, List.getD_cons_zero, List.getD_cons_succ, List.length_cons]
  rw [if_neg (by omega)]
  norm_num
  simp only [process_write_multiple_registers, write_multiple_registers_req_min_size,
    fetch8, fetch16_be, List.cons_append, List.nil_append, List.getD_cons_zero,
    List.getD_cons_succ, List.length_cons, List.drop_succ_cons, List.drop_zero]
  rw [if_neg (by simp only [hsl]; omega)]
  rw [hi_lo_eq addr haddr, hi_lo_eq regs.length hcnt]
  rw [if_neg (by simp only [min_write_registers, max_write_registers, not_or,
    Decidable.not_not]; exact ⟨⟨h1, h2⟩, trivial⟩)]
  rw [if_neg (by simp only [hsl]; omega)]
  rw [parse_serialize_regs regs hv]
  simp [hb, is_modbus_exception, errc.none, errc.invalid_argument, store8,
    store16_be]

theorem engine_mask_write_register (b : backend_connector)
    (addr and_mask or_mask cur : Nat) (haddr : addr < 65536)
    (hand : and_mask < 65536) (hor : or_mask < 65536)
    (hread : b.read_holding_registers addr 1 = (errc.none, [cur]))
    (hwrite : b.write_holding_registers addr
      [(cur &&& and_mask) ||| (or_mask &&& (65535 ^^^ and_mask))] = errc.none) :
    server_engine b [22, addr / 256 % 256, addr % 256, and_mask / 256 % 256,
        and_mask % 256, or_mask / 256 % 256, or_mask % 256] =
      (.ok [22, addr / 256 % 256, addr % 256, and_mask / 256 % 256,
        and_mask % 256, or_mask / 256 % 256, or_mask % 256],
       [backend_call.read_holding_registers addr 1,
        backend_call.write_holding_registers addr
          [(cur &&& and_mask) ||| (or_mask &&& (65535 ^^^ and_mask))]]) := by
  simp only [server_engine, fetch8, min_pdu_size, List.getD_cons_zero,
    List.getD_cons_succ, List.length_cons, List.length_nil]
  rw [if_neg (by omega)]
  norm_num
  simp only [process_mask_write_registers, mask_write_register_req_size,
    fetch8, fetch16_be, List.getD_cons_zero, List.getD_cons_succ,
    List.length_cons, List.length_nil]
  rw [if_neg (by omega)]
  rw [hi_lo_eq addr haddr, hi_lo_eq and_mask hand, hi_lo_eq or_mask hor]
  rw [hread]
  simp only []
  rw [if_pos trivial]
  rw [if_neg (by simp)]
  rw [List.getD_cons_zero]
  rw [mask_complement_eq or_mask and_mask hor]
  rw [hwrite]
  simp [is_modbus_exception, errc.none, errc.invalid_argument, store8, store16_be]

theorem engine_read_write_multiple_registers (b : backend_connector)
    (addr_rd cnt_rd addr_wr : Nat) (regs_wr regs_rd : List Nat)
    (hard : addr_rd < 65536) (harw : addr_wr < 65536)
    (hr1 : 1 ≤ cnt_rd) (hr2 : cnt_rd ≤ 125)
    (hw1 : 1 ≤ regs_wr.length) (hw2 : regs_wr.length ≤ 121)
    (hv : ∀ v ∈ regs_wr, v < 65536)
    (hb : b.write_read_holding_registers addr_wr regs_wr addr_rd cnt_rd =
      (errc.none, regs_rd))
    (hrdlen : regs_rd.length = cnt_rd) :
    server_engine b ([23, addr_rd / 256 % 256, addr_rd % 256, cnt_rd / 256 % 256,
        cnt_rd % 256, addr_wr / 256 % 256, addr_wr % 256, regs_wr.length / 256 % 256,
        regs_wr.length % 256, regs_wr.length * 2] ++ serialize_regs regs_wr) =
      (.ok ([23, cnt_rd * 2] ++ serialize_regs regs_rd),
       [backend_call.write_read_holding_registers addr_wr regs_wr addr_rd cnt_rd]) := by
  have hcw : regs_wr.length < 65536 := by omega
  have hcr : cnt_rd < 65536 := by omega
  have hrd2 : cnt_rd * 2 < 256 := by omega
  have hsl : (serialize_regs regs_wr).length = 2 * regs_wr.length :=
    serialize_regs_length regs_wr
  simp only [server_engine, fetch8, min_pdu_size, List.cons_append,
    List.nil_append, List.getD_cons_zero, List.getD_cons_succ, List.length_cons]
  rw [if_neg (by omega)]
  norm_num
  simp only [process_read_write_multiple_registers,
    read_write_multiple_registers_req_min_size, fetch8, fetch16_be,
    List.cons_append, List.nil_append, List.getD_cons_zero, List.getD_cons_succ,
    List.length_cons, List.drop_succ_cons, List.drop_zero]
  rw [if_neg (by simp only [hsl]; omega)]
  rw [hi_lo_eq addr_rd hard, hi_lo_eq addr_wr harw, hi_lo_eq cnt_rd hcr,
    hi_lo_eq regs_wr.length hcw]
  rw [if_neg (by simp only [min_rdwr_read_registers, max_rdwr_read_registers,
    min_rdwr_write_registers, max_rdwr_write_registers, not_or,
    Decidable.not_not]; exact ⟨⟨hr1, hr2⟩, ⟨hw1, hw2⟩, trivial⟩)]
  rw [if_neg (by simp only [hsl]; omega)]
  rw [parse_serialize_regs regs_wr hv]
  simp [hb, hrdlen, is_modbus_exception, errc.none, errc.invalid_argument, store8,
    Nat.mod_eq_of_lt hrd2]

theorem engine_read_device_identification (b : backend_connector)
    (vendor product version : List Nat)
    (hb : b.get_basic_device_identification = (errc.none, (vendor, product, version)))
    (hv : vendor.length < 256) (hp : product.length < 256)
    (hs : version.length < 256)
    (htot : vendor.length + product.length + version.length ≤ 240) :
    server_engine b [43, 14, 1, 0] =
      (.ok ([43, 14, 1, 1, 0, 0, 3, 0, vendor.length] ++ vendor ++
        ([1, product.length] ++ product) ++ ([2, version.length] ++ version)),
       [backend_call.get_basic_device_identification]) := by
  simp only [server_engine, fetch8, min_pdu_size, List.getD_cons_zero,
    List.getD_cons_succ, List.length_cons, List.length_nil]
  rw [if_neg (by omega)]
  norm_num
  simp only [process_read_device_information, read_device_identification_req_size,
    fetch8, List.getD_cons_zero, List.getD_cons_succ, List.length_cons,
    List.length_nil]
  rw [if_neg (by omega)]
  norm_num
  rw [hb]
  have hcap : ¬ (max_pdu_size < read_device_identification_rsp_min_size +
      vendor.length + product.length + version.length + 3) := by
    simp only [max_pdu_size, read_device_identification_rsp_min_size]
    omega
  simp [hcap, is_modbus_exception, errc.none, errc.invalid_argument, store8,
    Nat.mod_eq_of_lt hv, Nat.mod_eq_of_lt hp, Nat.mod_eq_of_lt hs]

theorem parse_write_single_coil_rt (addr : Nat) (coil_on : Bool)
    (haddr : addr < 65536) :
    parse_write_single_coil_response [5, addr / 256 % 256, addr % 256,
      (if coil_on then single_coil_on else single_coil_off) / 256 % 256,
      (if coil_on then single_coil_on else single_coil_off) % 256] addr coil_on =
      .ok () := by
  have hval : (if coil_on then single_coil_on else single_coil_off) < 65536 := by
    cases coil_on <;> simp [single_coil_on, single_coil_off]
  have hchk : check_for_exception [5, addr / 256 % 256, addr % 256,
      (if coil_on then single_coil_on else single_coil_off) / 256 % 256,
      (if coil_on then single_coil_on else single_coil_off) % 256] 5 = .ok () := by
    rw [check_for_exception, if_pos (by simp [exception_rsp_size])]
  simp only [parse_write_single_coil_response, hchk]
  simp only [write_coil_rsp_size, fetch8, fetch16_be, List.getD_cons_zero,
    List.getD_cons_succ, List.length_cons, List.length_nil]
  simp only [hi_lo_eq addr haddr,
    hi_lo_eq (if coil_on then single_coil_on else single_coil_off) hval]
  simp

theorem parse_write_single_register_rt (addr val : Nat)
    (haddr : addr < 65536) (hval : val < 65536) :
    parse_write_single_register_response [6, addr / 256 % 256, addr % 256,
      val / 256 % 256, val % 256] addr val = .ok () := by
  have hchk : check_for_exception [6, addr / 256 % 256, addr % 256,
      val / 256 % 256, val % 256] 6 = .ok () := by
    rw [check_for_exception, if_pos (by simp [exception_rsp_size])]
  simp only [parse_write_single_register_response, hchk]
  simp only [write_register_rsp_size, fetch8, fetch16_be, List.getD_cons_zero,
    List.getD_cons_succ, List.length_cons, List.length_nil]
  simp only [hi_lo_eq addr haddr, hi_lo_eq val hval]
  simp

theorem parse_write_multiple_coils_rt (addr cnt : Nat)
    (haddr : addr < 65536) (hcnt : cnt < 65536) :
    parse_write_multiple_coils_response [15, addr / 256 % 256, addr % 256,
      cnt / 256 % 256, cnt % 256] addr cnt = .ok () := by
  have hchk : check_for_exception [15, addr / 256 % 256, addr % 256,
      cnt / 256 % 256, cnt % 256] 15 = .ok () := by
    rw [check_for_exception, if_pos (by simp [exception_rsp_size])]
  simp only [parse_write_multiple_coils_response, hchk]
  simp only [write_multiple_coils_rsp_size, fetch8, fetch16_be,
    List.getD_cons_zero, List.getD_cons_succ, List.length_cons, List.length_nil]
  simp only [hi_lo_eq addr haddr, hi_lo_eq cnt hcnt]
  simp

theorem parse_write_multiple_registers_rt (addr cnt : Nat)
    (haddr : addr < 65536) (hcnt : cnt < 65536) :
    parse_write_multiple_registers_response [16, addr / 256 % 256, addr % 256,
      cnt / 256 % 256, cnt % 256] addr cnt = .ok () := by
  have hchk : check_for_exception [16, addr / 256 % 256, addr % 256,
      cnt / 256 % 256, cnt % 256] 16 = .ok () := by
    rw [check_for_exception, if_pos (by simp [exception_rsp_size])]
  simp only [parse_write_multiple_registers_response, hchk]
  simp only [write_multiple_registers_rsp_size, fetch8, fetch16_be,
    List.getD_cons_zero, List.getD_cons_succ, List.length_cons, List.length_nil]
  simp only [hi_lo_eq addr haddr, hi_lo_eq cnt hcnt]
  simp

theorem parse_mask_write_rt (addr and_msk or_msk : Nat)
    (haddr : addr < 65536) (hand : and_msk < 65536) (hor : or_msk < 65536) :
    parse_mask_write_register_response [22, addr / 256 % 256, addr % 256,
      and_msk / 256 % 256, and_msk % 256, or_msk / 256 % 256, or_msk % 256]
      addr and_msk or_msk = .ok () := by
  have hchk : check_for_exception [22, addr / 256 % 256, addr % 256,
      and_msk / 256 % 256, and_msk % 256, or_msk / 256 % 256, or_msk % 256] 22 =
      .ok () := by
    rw [check_for_exception, if_pos (by simp [exception_rsp_size])]
  simp only [parse_mask_write_register_response, hchk]
  simp only [mask_write_register_rsp_size, fetch8, fetch16_be,
    List.getD_cons_zero, List.getD_cons_succ, List.length_cons, List.length_nil]
  simp only [hi_lo_eq addr haddr, hi_lo_eq and_msk hand, hi_lo_eq or_msk hor]
  simp

theorem device_id_objects_step (k oid : Nat) (val tail : List Nat)
    (acc : List Nat × List Nat × List Nat) :
    parse_device_id_objects (k + 1) (oid :: val.length :: (val ++ tail)) acc =
      (if oid = 0 then parse_device_id_objects k tail (val, acc.2.1, acc.2.2)
       else if oid = 1 then parse_device_id_objects k tail (acc.1, val, acc.2.2)
       else if oid = 2 then parse_device_id_objects k tail (acc.1, acc.2.1, val)
       else .error errc.parse_error) := by
  rw [parse_device_id_objects]
  simp only [fetch8, List.getD_cons_zero, List.getD_cons_succ, List.length_cons,
    List.drop_succ_cons, List.drop_zero]
  rw [if_neg (by omega)]
  rw [if_neg (by simp only [List.length_append]; omega)]
  rw [List.take_left, drop_two_add, List.drop_left]

theorem parse_device_id_rt (vendor product version : List Nat)
    (hv : vendor.length < 256) (hp : product.length < 256)
    (hs : version.length < 256) :
    parse_read_device_identification_response
      ([43, 14, 1, 1, 0, 0, 3, 0, vendor.length] ++ vendor ++
        ([1, product.length] ++ product) ++ ([2, version.length] ++ version)) =
      .ok (vendor, product, version) := by
  have hchk : check_for_exception
      ([43, 14, 1, 1, 0, 0, 3, 0, vendor.length] ++ vendor ++
        ([1, product.length] ++ product) ++ ([2, version.length] ++ version)) 43 =
      .ok () := by
    rw [check_for_exception, if_pos]
    simp only [exception_rsp_size, List.cons_append, List.nil_append,
      List.append_assoc, List.length_cons, List.length_append]
    omega
  simp only [parse_read_device_identification_response, hchk]
  simp only [List.cons_append, List.nil_append, List.append_assoc,
    read_device_identification_rsp_min_size, fetch8, List.getD_cons_zero,
    List.getD_cons_succ, List.length_cons, List.length_append,
    List.drop_succ_cons, List.drop_zero]
  rw [if_neg (by omega)]
  rw [if_neg (by omega)]
  rw [if_neg (by omega)]
  rw [if_neg (by omega)]
  rw [if_neg (by omega)]
  rw [if_neg (by omega)]
  rw [show (3 : Nat) = 2 + 1 from rfl, device_id_objects_step]
  rw [if_pos rfl]
  rw [show (2 : Nat) = 1 + 1 from rfl]
  rw [show (1 :: product.length :: (product ++ (2 :: version.length :: version)) :
      List Nat) = 1 :: product.length :: (product ++ (2 :: version.length ::
      (version ++ []))) from by simp]
  rw [device_id_objects_step]
  rw [if_neg (by omega), if_pos rfl]
  rw [show (1 : Nat) = 0 + 1 from rfl]
  rw [device_id_objects_step]
  rw [if_neg (by omega), if_neg (by omega), if_pos rfl]
  rfl

/-- C1: for every supported function code and every valid request PDU
whose quantities are in range and whose backend call succeeds, running
the request through the server engine and parsing the resulting
response PDU with the corresponding client-side parser yields exactly
the backend-provided result — the bits for 0x01/0x02, the registers for
0x03/0x04/0x17, the identification strings for 0x2B (when they fit the
response buffer, i.e. total at most 240 bytes), and the validated echo
for the write-style functions 0x05/0x06/0x0F/0x10/0x16. -/
theorem server_client_roundtrip :
    (∀ (b : backend_connector) (addr cnt : Nat) (bits : List Bool),
      addr < 65536 → 1 ≤ cnt → cnt ≤ 2000 →
      b.read_coils addr cnt = (errc.none, bits) → bits.length = cnt →
      ((server_engine b [1, addr / 256 % 256, addr % 256, cnt / 256 % 256,
          cnt % 256]).1.bind (fun rsp => parse_read_bits_response rsp 1 cnt)) =
        .ok bits) ∧
    (∀ (b : backend_connector) (addr cnt : Nat) (bits : List Bool),
      addr < 65536 → 1 ≤ cnt → cnt ≤ 2000 →
      b.read_discrete_inputs addr cnt = (errc.none, bits) → bits.length = cnt →
      ((server_engine b [2, addr / 256 % 256, addr % 256, cnt / 256 % 256,
          cnt % 256]).1.bind (fun rsp => parse_read_bits_response rsp 2 cnt)) =
        .ok bits) ∧
    (∀ (b : backend_connector) (addr cnt : Nat) (regs : List Nat),
      addr < 65536 → 1 ≤ cnt → cnt ≤ 125 →
      b.read_holding_registers addr cnt = (errc.none, regs) → regs.length = cnt →
      (∀ v ∈ regs, v < 65536) →
      ((server_engine b [3, addr / 256 % 256, addr % 256, cnt / 256 % 256,
          cnt % 256]).1.bind (fun rsp => parse_read_registers_response rsp 3 cnt)) =
        .ok regs) ∧
    (∀ (b : backend_connector) (addr cnt : Nat) (regs : List Nat),
      addr < 65536 → 1 ≤ cnt → cnt ≤ 125 →
      b.read_input_registers addr cnt = (errc.none, regs) → regs.length = cnt →
      (∀ v ∈ regs, v < 65536) →
      ((server_engine b [4, addr / 256 % 256, addr % 256, cnt / 256 % 256,
          cnt % 256]).1.bind (fun rsp => parse_read_registers_response rsp 4 cnt)) =
        .ok regs) ∧
    (∀ (b : backend_connector) (addr : Nat) (coil_on : Bool),
      addr < 65536 → b.write_coils addr [coil_on] = errc.none →
      ((server_engine b [5, addr / 256 % 256, addr % 256,
          (if coil_on then single_coil_on else single_coil_off) / 256 % 256,
          (if coil_on then single_coil_on else single_coil_off) % 256]).1.bind
        (fun rsp => parse_write_single_coil_response rsp addr coil_on)) = .ok ()) ∧
    (∀ (b : backend_connector) (addr val : Nat),
      addr < 65536 → val < 65536 →
      b.write_holding_registers addr [val] = errc.none →
      ((server_engine b [6, addr / 256 % 256, addr % 256, val / 256 % 256,
          val % 256]).1.bind
        (fun rsp => parse_write_single_register_response rsp addr val)) = .ok ()) ∧
    (∀ (b : backend_connector) (addr : Nat) (bits : List Bool),
      addr < 65536 → 1 ≤ bits.length → bits.length ≤ 1968 →
      b.write_coils addr bits = errc.none →
      ((server_engine b ([15, addr / 256 % 256, addr % 256,
          bits.length / 256 % 256, bits.length % 256,
          bit_to_byte_count bits.length] ++ serialize_bits bits)).1.bind
        (fun rsp => parse_write_multiple_coils_response rsp addr bits.length)) =
        .ok ()) ∧
    (∀ (b : backend_connector) (addr : Nat) (regs : List Nat),
      addr < 65536 → 1 ≤ regs.length → regs.length ≤ 123 →
      (∀ v ∈ regs, v < 65536) →
      b.write_holding_registers addr regs = errc.none →
      ((server_engine b ([16, addr / 256 % 256, addr % 256,
          regs.length / 256 % 256, regs.length % 256,
          regs.length * 2] ++ serialize_regs regs)).1.bind
        (fun rsp => parse_write_multiple_registers_response rsp addr regs.length)) =
        .ok ()) ∧
    (∀ (b : backend_connector) (addr and_mask or_mask cur : Nat),
      addr < 65536 → and_mask < 65536 → or_mask < 65536 →
      b.read_holding_registers addr 1 = (errc.none, [cur]) →
      b.write_holding_registers addr
        [(cur &&& and_mask) ||| (or_mask &&& (65535 ^^^ and_mask))] = errc.none →
      ((server_engine b [22, addr / 256 % 256, addr % 256, and_mask / 256 % 256,
          and_mask % 256, or_mask / 256 % 256, or_mask % 256]).1.bind
        (fun rsp => parse_mask_write_register_response rsp addr and_mask or_mask)) =
        .ok ()) ∧
    (∀ (b : backend_connector) (addr_rd cnt_rd addr_wr : Nat)
        (regs_wr regs_rd : List Nat),
      addr_rd < 65536 → addr_wr < 65536 → 1 ≤ cnt_rd → cnt_rd ≤ 125 →
      1 ≤ regs_wr.length → regs_wr.length ≤ 121 → (∀ v ∈ regs_wr, v < 65536) →
      b.write_read_holding_registers addr_wr regs_wr addr_rd cnt_rd =
        (errc.none, regs_rd) →
      regs_rd.length = cnt_rd → (∀ v ∈ regs_rd, v < 65536) →
      ((server_engine b ([23, addr_rd / 256 % 256, addr_rd % 256,
          cnt_rd / 256 % 256, cnt_rd % 256, addr_wr / 256 % 256, addr_wr % 256,
          regs_wr.length / 256 % 256, regs_wr.length % 256,
          regs_wr.length * 2] ++ serialize_regs regs_wr)).1.bind
        (fun rsp => parse_read_write_multiple_registers_response rsp cnt_rd)) =
        .ok regs_rd) ∧
    (∀ (b : backend_connector) (vendor product version : List Nat),
      b.get_basic_device_identification = (errc.none, (vendor, product, version)) →
      vendor.length < 256 → product.length < 256 → version.length < 256 →
      vendor.length + product.length + version.length ≤ 240 →
      ((server_engine b [43, 14, 1, 0]).1.bind
        (fun rsp => parse_read_device_identification_response rsp)) =
        .ok (vendor, product, version)) := by
  refine ⟨?_, ?_, ?_, ?_, ?_, ?_, ?_, ?_, ?_, ?_, ?_⟩
  · intro b addr cnt bits haddr h1 h2 hb hlen
    rw [engine_read_coils b addr cnt bits haddr h1 h2 hb hlen]
    simp only [Except.bind]
    rw [← hlen]
    exact parse_read_bits_rt 1 bits (by omega)
  · intro b addr cnt bits haddr h1 h2 hb hlen
    rw [engine_read_discrete_inputs b addr cnt bits haddr h1 h2 hb hlen]
    simp only [Except.bind]
    rw [← hlen]
    exact parse_read_bits_rt 2 bits (by omega)
  · intro b addr cnt regs haddr h1 h2 hb hlen hv
    rw [engine_read_holding_registers b addr cnt regs haddr h1 h2 hb hlen]
    simp only [Except.bind]
    rw [← hlen]
    exact parse_read_registers_rt 3 regs (by omega) hv
  · intro b addr cnt regs haddr h1 h2 hb hlen hv
    rw [engine_read_input_registers b addr cnt regs haddr h1 h2 hb hlen]
    simp only [Except.bind]
    rw [← hlen]
    exact parse_read_registers_rt 4 regs (by omega) hv
  · intro b addr coil_on haddr hb
    rw [engine_write_single_coil b addr coil_on haddr hb]
    simp only [Except.bind]
    exact parse_write_single_coil_rt addr coil_on haddr
  · intro b addr val haddr hval hb
    rw [engine_write_single_register b addr val haddr hval hb]
    simp only [Except.bind]
    exact parse_write_single_register_rt addr val haddr hval
  · intro b addr bits haddr h1 h2 hb
    rw [engine_write_multiple_coils b addr bits haddr h1 h2 hb]
    simp only [Except.bind]
    exact parse_write_multiple_coils_rt addr bits.length haddr (by omega)
  · intro b addr regs haddr h1 h2 hv hb
    rw [engine_write_multiple_registers b addr regs haddr h1 h2 hv hb]
    simp only [Except.bind]
    exact parse_write_multiple_registers_rt addr regs.length haddr (by omega)
  · intro b addr and_mask or_mask cur haddr hand hor hread hwrite
    rw [engine_mask_write_register b addr and_mask or_mask cur haddr hand hor
      hread hwrite]
    simp only [Except.bind]
    exact parse_mask_write_rt addr and_mask or_mask haddr hand hor
  · intro b addr_rd cnt_rd addr_wr regs_wr regs_rd hard harw hr1 hr2 hw1 hw2 hv
      hb hrdlen hvrd
    rw [engine_read_write_multiple_registers b addr_rd cnt_rd addr_wr regs_wr
      regs_rd hard harw hr1 hr2 hw1 hw2 hv hb hrdlen]
    simp only [Except.bind, parse_read_write_multiple_registers_response]
    rw [← hrdlen]
    exact parse_read_registers_rt 23 regs_rd (by omega) hvrd
  · intro b vendor product version hb hv hp hs htot
    rw [engine_read_device_identification b vendor product version hb hv hp hs htot]
    simp only [Except.bind]
    exact parse_device_id_rt vendor product version hv hp hs

/-- Witness for C1 at concrete inputs, against the concrete backend. -/
theorem server_client_roundtrip_witness :
    ((server_engine testBackend [1, 0, 19, 0, 3]).1.bind
      (fun rsp => parse_read_bits_response rsp 1 3)) = .ok [true, true, true] ∧
    ((server_engine testBackend [6, 0, 7, 1, 5]).1.bind
      (fun rsp => parse_write_single_register_response rsp 7 261)) = .ok () ∧
    ((server_engine testBackend [43, 14, 1, 0]).1.bind
      (fun rsp => parse_read_device_identification_response rsp)) =
      .ok ([77, 66], [80], [49, 46, 50]) :=
  ⟨server_client_roundtrip.1 testBackend 19 3 [true, true, true]
      (by decide) (by decide) (by decide) rfl rfl,
   server_client_roundtrip.2.2.2.2.2.1 testBackend 7 261
      (by decide) (by decide) rfl,
   server_client_roundtrip.2.2.2.2.2.2.2.2.2.2 testBackend [77, 66] [80]
      [49, 46, 50] rfl (by decide) (by decide) (by decide) (by decide)⟩

end mboxid
